import Mathlib

/-!
# SG_Com.h — a verification development

`deps/SG_Com.h` is the C interface of the SG_Com transceiver library: seven
enumerations, three structures, one callback type and twenty-six exported
functions.  The header holds declarations only; the bodies of the functions
live in the library binary.

The first part of this file embeds the declarations of the header: each
enumeration with the numbering C gives its enumerators, each structure with
its fields, each exported function with its return type.  The second part
models the behaviour of the functions that return an `SG_Error`, from the
specification's description of the engine, since the header has no body to
translate.
-/

namespace SGCom

/-! ## C enumerations -/

/-- The numbering C gives the enumerators of one `enum`, in declaration
order: an enumerator with an initialiser takes that value, one without takes
the value of the previous enumerator plus one, and the first takes `next`
(0 for a whole declaration). -/
def enumValues : Nat → List (Option Nat) → List Nat
  | _, [] => []
  | next, none :: rest => next :: enumValues (next + 1) rest
  | _, some v :: rest => v :: enumValues (v + 1) rest

/-- The value of enumerator `x` of a declaration `decl`, a list of enumerators
with their optional initialisers in declaration order. -/
def enumValueOf {α : Type} [DecidableEq α] (decl : List (α × Option Nat)) (x : α) : Nat :=
  match (decl.map Prod.fst).indexOf? x with
  | some i => (enumValues 0 (decl.map Prod.snd)).getD i 0
  | none => 0

/-- The type `SG_Error`, header lines 22-37. -/
inductive SG_Error where
  | SG_ERROR_OK
  | SG_ERROR_BUFFER_OVERFLOW
  | SG_ERROR_UNKNOWN0
  | SG_ERROR_LICENSE_INIT
  | SG_ERROR_UNKNOWN1
  | SG_ERROR_LICENSE_CHECKOUT
  | SG_ERROR_UNKNOWN2
  | SG_ERROR_INVALID_TRANSCEIVER
  | SG_ERROR_INVALID_INPUT_TRAITS
  | SG_ERROR_INPUT_FAILURE
  | SG_ERROR_INVALID_OUTPUT_TRAITS
  | SG_ERROR_INVALID_USER_ID
  | SG_ERROR_INVALID_ANIMATION_NODE
  | SG_ERROR_INVALID_ANIMATION_CHANNEL
  deriving DecidableEq, Repr, Fintype

/-- The enumerator list of `SG_Error` as declared: no enumerator has an
initialiser. -/
def SG_Error.decl : List (SG_Error × Option Nat) :=
  [ (.SG_ERROR_OK, none),
    (.SG_ERROR_BUFFER_OVERFLOW, none),
    (.SG_ERROR_UNKNOWN0, none),
    (.SG_ERROR_LICENSE_INIT, none),
    (.SG_ERROR_UNKNOWN1, none),
    (.SG_ERROR_LICENSE_CHECKOUT, none),
    (.SG_ERROR_UNKNOWN2, none),
    (.SG_ERROR_INVALID_TRANSCEIVER, none),
    (.SG_ERROR_INVALID_INPUT_TRAITS, none),
    (.SG_ERROR_INPUT_FAILURE, none),
    (.SG_ERROR_INVALID_OUTPUT_TRAITS, none),
    (.SG_ERROR_INVALID_USER_ID, none),
    (.SG_ERROR_INVALID_ANIMATION_NODE, none),
    (.SG_ERROR_INVALID_ANIMATION_CHANNEL, none) ]

/-- The integer an `SG_Error` enumerator stands for. -/
def SG_Error.toNat (e : SG_Error) : Nat := enumValueOf SG_Error.decl e

/-- The type `SG_LogLevel`, header lines 39-43. -/
inductive SG_LogLevel where
  | SG_LOG_NONE
  | SG_LOG_ERROR
  | SG_LOG_ALL
  deriving DecidableEq, Repr, Fintype

/-- The type `SG_SampleRate`, header lines 45-52. -/
inductive SG_SampleRate where
  | SG_RATE_8KHZ
  | SG_RATE_12KHZ
  | SG_RATE_16KHZ
  | SG_RATE_24KHZ
  | SG_RATE_32KHZ
  | SG_RATE_48KHZ
  deriving DecidableEq, Repr, Fintype

/-- The enumerator list of `SG_SampleRate` as declared. -/
def SG_SampleRate.decl : List (SG_SampleRate × Option Nat) :=
  [ (.SG_RATE_8KHZ, none),
    (.SG_RATE_12KHZ, none),
    (.SG_RATE_16KHZ, none),
    (.SG_RATE_24KHZ, none),
    (.SG_RATE_32KHZ, none),
    (.SG_RATE_48KHZ, none) ]

/-- The integer an `SG_SampleRate` enumerator stands for. -/
def SG_SampleRate.toNat (r : SG_SampleRate) : Nat := enumValueOf SG_SampleRate.decl r

/-- The rate an `SG_SampleRate` enumerator denotes, in kHz, as its name and
its header comment give it (`SG_RATE_8KHZ, /// 8kHz`). -/
def SG_SampleRate.kHz : SG_SampleRate → Nat
  | .SG_RATE_8KHZ => 8
  | .SG_RATE_12KHZ => 12
  | .SG_RATE_16KHZ => 16
  | .SG_RATE_24KHZ => 24
  | .SG_RATE_32KHZ => 32
  | .SG_RATE_48KHZ => 48

/-- The type `SG_SampleType`, header lines 54-60. -/
inductive SG_SampleType where
  | SG_SAMPLE_PCM8
  | SG_SAMPLE_PCM16
  | SG_SAMPLE_PCM32
  | SG_SAMPLE_FLOAT32
  | SG_SAMPLE_FLOAT64
  deriving DecidableEq, Repr, Fintype

/-- The enumerator list of `SG_SampleType` as declared. -/
def SG_SampleType.decl : List (SG_SampleType × Option Nat) :=
  [ (.SG_SAMPLE_PCM8, none),
    (.SG_SAMPLE_PCM16, none),
    (.SG_SAMPLE_PCM32, none),
    (.SG_SAMPLE_FLOAT32, none),
    (.SG_SAMPLE_FLOAT64, none) ]

/-- The integer an `SG_SampleType` enumerator stands for. -/
def SG_SampleType.toNat (s : SG_SampleType) : Nat := enumValueOf SG_SampleType.decl s

/-- The type `SG_AnimationType`, header lines 62-65. -/
inductive SG_AnimationType where
  | SG_ANIM_DEFORMER
  | SG_ANIM_CONTROL
  deriving DecidableEq, Repr, Fintype

/-- The type `SG_AnimationNodeType`, header lines 67-71. -/
inductive SG_AnimationNodeType where
  | SG_NODE_JOINT
  | SG_NODE_BLEND_SHAPE
  | SG_NODE_CONTROL
  deriving DecidableEq, Repr, Fintype

/-- The enumerator list of `SG_AnimationNodeType` as declared. -/
def SG_AnimationNodeType.decl : List (SG_AnimationNodeType × Option Nat) :=
  [ (.SG_NODE_JOINT, none),
    (.SG_NODE_BLEND_SHAPE, none),
    (.SG_NODE_CONTROL, none) ]

/-- The integer an `SG_AnimationNodeType` enumerator stands for. -/
def SG_AnimationNodeType.toNat (k : SG_AnimationNodeType) : Nat :=
  enumValueOf SG_AnimationNodeType.decl k

/-- The type `SG_OutputDataType`, header lines 73-78. -/
inductive SG_OutputDataType where
  | SG_OUTPUT_NONE
  | SG_OUTPUT_ANIMATION
  | SG_OUTPUT_AUDIO
  | SG_OUTPUT_USER_DEFINED
  deriving DecidableEq, Repr, Fintype

/-- The enumerator list of `SG_OutputDataType` as declared: every enumerator
has an initialiser. -/
def SG_OutputDataType.decl : List (SG_OutputDataType × Option Nat) :=
  [ ( SG_OutputDataType.SG_OUTPUT_NONE, some 0),
    ( SG_OutputDataType.SG_OUTPUT_ANIMATION, some 2),
    ( SG_OutputDataType.SG_OUTPUT_AUDIO, some 4),
    ( SG_OutputDataType.SG_OUTPUT_USER_DEFINED, some 8) ]

/-- The integer an `SG_OutputDataType` enumerator stands for. -/
def SG_OutputDataType.toNat (o : SG_OutputDataType) : Nat :=
  enumValueOf SG_OutputDataType.decl o

/-- The three flags of `SG_OutputDataType`: its enumerators other than
`SG_OUTPUT_NONE`. -/
def outputFlags : List SG_OutputDataType :=
  [ SG_OutputDataType.SG_OUTPUT_ANIMATION, SG_OutputDataType.SG_OUTPUT_AUDIO,
    SG_OutputDataType.SG_OUTPUT_USER_DEFINED ]

/-- The mask of a set of output flags, as a caller builds the `output_type`
argument: the bitwise OR of the values of its members. -/
def outputMask (S : List SG_OutputDataType) : Nat :=
  S.foldr (fun f m => f.toNat ||| m) 0

/-- Whether flag `f` is set in mask `m`: the bitwise AND is not zero. -/
def flagSet (m : Nat) (f : SG_OutputDataType) : Bool :=
  m &&& f.toNat != 0

/-! ## Structures -/

/-- A `uint32_t` value. -/
abbrev UInt32Val := Fin (2 ^ 32)

/-- A `uint64_t` value. -/
abbrev UInt64Val := Fin (2 ^ 64)

/-- One `char` or `uint8_t`: a byte. -/
abbrev Byte := Fin 256

/-- A C array `char name[n]`: exactly `n` bytes. -/
abbrev CharArray (n : Nat) := { l : List Byte // l.length = n }

/-- The type `SG_InputTraits`, header lines 87-91; `size_t` is held as a natural
number. -/
structure SG_InputTraits where
  sample_type : SG_SampleType
  sample_rate : SG_SampleRate
  user_sample_size : Nat
  deriving DecidableEq, Repr

/-- The type `SG_OutputTraits`, header lines 93-100; `output_type` holds flags, so it
is kept as the integer mask. -/
structure SG_OutputTraits where
  output_type : Nat
  anim_node_count : UInt32Val
  sample_type : SG_SampleType
  sample_rate : UInt32Val
  user_sample_size : UInt32Val
  user_sample_rate : UInt32Val
  deriving DecidableEq, Repr

/-- The type `SG_AnimationNodeInfo`, header lines 102-106. -/
structure SG_AnimationNodeInfo where
  name : CharArray 1024
  type : SG_AnimationNodeType
  channel_count : UInt32Val
  deriving DecidableEq

/-- C `strlen` bounded by the buffer: the number of bytes before the first
NUL, `none` when the buffer holds no NUL (the string is not terminated). -/
def cstrlen : List Byte → Option Nat
  | [] => none
  | b :: rest => if b = 0 then some 0 else (cstrlen rest).map (· + 1)

/-! ## Exported functions -/

/-- The functions the header declares with `SG_EXPORT`, lines 108-253, in
declaration order. -/
inductive SG_Export where
  | SG_Initialize
  | SG_Shutdown
  | SG_GetVersionString
  | SG_GetVersionNumber
  | SG_SetLoggingLevel
  | SG_STDLN_CreateTransceiver
  | SG_STDLN_DestroyTransceiver
  | SG_STDLN_ConnectUser
  | SG_STDLN_DisconnectUser
  | SG_STDLN_GetDecodingConfiguration
  | SG_STDLN_Receive
  | SG_STDLN_SynchronizeClock
  | SG_GetAnimationNodeInfo
  | SG_GetAnimationChannelName
  | SG_UpdateInputTraits
  | SG_GetOutputTraits
  | SG_Input
  | SG_AdvanceOutput
  | SG_GetOutputAnimation
  | SG_GetOutputAudio
  | SG_GetOutputUserData
  | SG_GetMoodList
  | SG_GetCurrentMood
  | SG_SetMood
  | SG_GetCurrentIntensity
  | SG_SetIntensity
  deriving DecidableEq, Repr, Fintype

/-- The return types that occur in the header's exported declarations. -/
inductive CReturnType where
  | SG_Error
  | const_char_ptr
  | uint32_t
  deriving DecidableEq, Repr

/-- The declared return type of each exported function. -/
def SG_Export.returnType : SG_Export → CReturnType
  | .SG_Initialize => .SG_Error
  | .SG_Shutdown => .SG_Error
  | .SG_GetVersionString => .const_char_ptr
  | .SG_GetVersionNumber => .uint32_t
  | .SG_SetLoggingLevel => .SG_Error
  | .SG_STDLN_CreateTransceiver => .SG_Error
  | .SG_STDLN_DestroyTransceiver => .SG_Error
  | .SG_STDLN_ConnectUser => .SG_Error
  | .SG_STDLN_DisconnectUser => .SG_Error
  | .SG_STDLN_GetDecodingConfiguration => .SG_Error
  | .SG_STDLN_Receive => .SG_Error
  | .SG_STDLN_SynchronizeClock => .SG_Error
  | .SG_GetAnimationNodeInfo => .SG_Error
  | .SG_GetAnimationChannelName => .SG_Error
  | .SG_UpdateInputTraits => .SG_Error
  | .SG_GetOutputTraits => .SG_Error
  | .SG_Input => .SG_Error
  | .SG_AdvanceOutput => .SG_Error
  | .SG_GetOutputAnimation => .SG_Error
  | .SG_GetOutputAudio => .SG_Error
  | .SG_GetOutputUserData => .SG_Error
  | .SG_GetMoodList => .SG_Error
  | .SG_GetCurrentMood => .SG_Error
  | .SG_SetMood => .SG_Error
  | .SG_GetCurrentIntensity => .SG_Error
  | .SG_SetIntensity => .SG_Error

/-! ## The specification's error taxonomy -/

/-- The error categories as the specification words them (its section 7):
the eight it names and the two licensing errors. -/
inductive SpecErrorCategory where
  | BufferOverflow
  | InvalidHandle
  | InvalidInputTraits
  | InvalidOutputTraits
  | InputFailure
  | InvalidUserId
  | InvalidAnimationNode
  | InvalidAnimationChannel
  | LicenseInit
  | LicenseCheckout
  deriving DecidableEq, Repr, Fintype

/-- The `SG_Error` enumerator that carries each category of the
specification, by the enumerator's name and header comment. -/
def SpecErrorCategory.enumerator : SpecErrorCategory → SG_Error
  | .BufferOverflow => .SG_ERROR_BUFFER_OVERFLOW
  | .InvalidHandle => .SG_ERROR_INVALID_TRANSCEIVER
  | .InvalidInputTraits => .SG_ERROR_INVALID_INPUT_TRAITS
  | .InvalidOutputTraits => .SG_ERROR_INVALID_OUTPUT_TRAITS
  | .InputFailure => .SG_ERROR_INPUT_FAILURE
  | .InvalidUserId => .SG_ERROR_INVALID_USER_ID
  | .InvalidAnimationNode => .SG_ERROR_INVALID_ANIMATION_NODE
  | .InvalidAnimationChannel => .SG_ERROR_INVALID_ANIMATION_CHANNEL
  | .LicenseInit => .SG_ERROR_LICENSE_INIT
  | .LicenseCheckout => .SG_ERROR_LICENSE_CHECKOUT

/-! ## The engine behind the transceiver functions

The header declares the transceiver functions and has no body for any of
them.  The definitions of this section are modelled from the specification's
description of the engine (its sections 3, 4, 6 and 7), one definition per
exported function that returns an `SG_Error`, under the function's name.  A C `float` is held as a rational number: every finite `float` is one,
and the model has no NaN and no infinity. -/

/-- A 64-bit user ID. -/
abbrev UserID := UInt64Val

/-- Modelled from the spec: one buffered output frame of a session, with its
three streams (section 3, "buffered pending animation/audio/user-data output
frames"); the body that produces frames is not in the header.  The animation
stream gives each node name its channel values. -/
structure OutputFrame where
  animation : List (List Byte × List ℚ)
  audio : List Byte
  audio_sample_count : UInt32Val
  user_data : List Byte
  user_num_samples : UInt32Val

/-- Modelled from the spec: one animation node of the synthesis model, the
node's `SG_AnimationNodeInfo` and the names of its channels (section 3,
AnimationNodeInfo); the node table is in the character data, not in the
header. -/
structure AnimationNode where
  info : SG_AnimationNodeInfo
  channels : List (List Byte)

/-- Modelled from the spec: the opaque synthesis model (sections 1 and 9: a
black box "mapping an audio frame + session state to animation/audio/user-data
frames"), missing from the header.  It is a parameter of the engine: nothing
is assumed about its functions. -/
structure SynthesisModel where
  /-- The sample type and rate combinations the model supports. -/
  supports : SG_SampleType → SG_SampleRate → Bool
  /-- Whether a pushed `sample_count` is consistent with the configured input
  traits (section 8).  The specification does not say which counts are; the
  rule sees the traits and the count, which is what `SG_Input` is given. -/
  sample_count_ok : SG_InputTraits → UInt32Val → Bool
  /-- Whether pushed audio is well formed. -/
  audio_ok : List Byte → Bool
  /-- The output traits a connection config negotiates, `none` for a config
  the model rejects. -/
  negotiate : List Byte → Option SG_OutputTraits
  /-- The synthesis state of a fresh session. -/
  initial_state : List Byte
  /-- The synthesis step: an audio window and a session's synthesis state give
  output frames and the next synthesis state. -/
  synthesize : List Byte → List Byte → List OutputFrame × List Byte
  /-- Decoding of a network packet against a decoding configuration, `none`
  for a malformed packet. -/
  decode : List Byte → List Byte → Option (List OutputFrame)
  /-- The configuration a remote peer needs to decode packets. -/
  decoding_configuration : List Byte
  /-- The animation nodes. -/
  nodes : List AnimationNode
  /-- The exported mood list, as the bytes of one C string. -/
  mood_list : List Byte
  /-- The mood names of the list. -/
  moods : List (List Byte)
  /-- The mood a transceiver starts with (section 3, Mood: "starts at the
  model-defined default"). -/
  default_mood : List Byte
  /-- The intensity a transceiver starts with. -/
  default_intensity : ℚ

/-- Modelled from the spec: a session (section 3, Session): per-user state
keyed by a 64-bit user ID, holding the decoding configuration blob, the
output clock in milliseconds, the buffered output frames, and the synthesis
state; the header has no such type. -/
structure Session where
  user_ID : UserID
  config : List Byte
  traits : SG_OutputTraits
  clock : ℚ
  pending : List OutputFrame
  synth_state : List Byte

/-- Modelled from the spec: the transceiver (section 3, Transceiver): the
owning context with the input traits, output type flags, animation type,
synthesis model, timing parameters, session table, rolling input buffer and
the mood and intensity; the header only declares `struct SG_Transceiver`. -/
structure SG_Transceiver where
  model : SynthesisModel
  input_traits : SG_InputTraits
  output_type : Nat
  anim_type : SG_AnimationType
  input_size_seconds : ℚ
  playback_size_ms : ℚ
  sessions : List Session
  input_buffer : List Byte
  mood : List Byte
  intensity : ℚ

/-- An `SG_TransceiverPtr` as a call sees it: the transceiver it points to,
or `none` for a pointer that is invalid or whose transceiver was
destroyed. -/
abbrev SG_TransceiverPtr := Option SG_Transceiver

/-- What one call gives back: the returned `SG_Error`, the transceiver
after the call, and what the call wrote through its out-pointers (`none` when
it wrote nothing). -/
structure Outcome (α : Type) where
  err : SG_Error
  next : SG_TransceiverPtr
  out : Option α

/-- A call that fails with `e` and changes nothing. -/
def Outcome.fail {α : Type} (e : SG_Error) (p : SG_TransceiverPtr) : Outcome α :=
  ⟨e, p, none⟩

/-- Modelled from the spec: session lookup by user ID (section 4.1, "Lookup
is the hot path"); the session table is not in the header. -/
def findSession (sessions : List Session) (U : UserID) : Option Session :=
  sessions.find? (fun s => s.user_ID == U)

/-- Modelled from the spec: whether user `U` is currently connected to
transceiver `t` (section 3: a session is "created on connect, destroyed on
disconnect"): `U` has a session in the table, which is not in the header. -/
def connected (t : SG_Transceiver) (U : UserID) : Bool :=
  (findSession t.sessions U).isSome

/-- The bytes of the C string held in a buffer: those before the first NUL. -/
def cstr (buf : List Byte) : List Byte :=
  buf.takeWhile (fun b => b != 0)

/-- The size in bytes of one sample of each `SG_SampleType`, as the
enumerator names give it. -/
def SG_SampleType.bytes : SG_SampleType → Nat
  | .SG_SAMPLE_PCM8 => 1
  | .SG_SAMPLE_PCM16 => 2
  | .SG_SAMPLE_PCM32 => 4
  | .SG_SAMPLE_FLOAT32 => 4
  | .SG_SAMPLE_FLOAT64 => 8

/-- Modelled from the spec: trait validation (section 4.2, "rejects
unsupported sample_type/sample_rate combinations or zero-sized user payloads
when user-defined output is requested"); the validating code is not in the
header. -/
def validTraits (t : SG_Transceiver) (traits : SG_InputTraits) : Bool :=
  t.model.supports traits.sample_type traits.sample_rate
    && !(flagSet t.output_type .SG_OUTPUT_USER_DEFINED && traits.user_sample_size == 0)

/-- What a call sees behind a `uint8_t*` it is given without a size: the byte
at each offset from the pointer. -/
abbrev BytePtr := Nat → Byte

/-- The first `n` bytes behind a pointer. -/
def readBytes (data : BytePtr) (n : Nat) : List Byte :=
  (List.range n).map data

/-- Modelled from the spec: the size in bytes of one analysis window (section
4.4, the "rolling input buffer sized by `input_size_seconds`"):
`input_size_seconds` of audio at the configured rate and sample type; the
buffering code is not in the header. -/
def windowBytes (t : SG_Transceiver) : Nat :=
  (Rat.floor (t.input_size_seconds * (t.input_traits.sample_rate.kHz * 1000 : ℚ))).toNat
    * t.input_traits.sample_type.bytes

/-- Modelled from the spec: one synthesis step for one session (section 4.4,
synthesis as a function of the audio window and the session state): the frames
the model makes of the window are appended to the session's buffered output
and the synthesis state is replaced; the clock is not touched.  The body is
not in the header. -/
def Session.synthesize (M : SynthesisModel) (window : List Byte) (s : Session) : Session :=
  let r := M.synthesize window s.synth_state
  { s with pending := s.pending ++ r.1, synth_state := r.2 }

/-- Modelled from the spec: the synthesis trigger (section 4.4, "once a full
analysis window is available, triggers the opaque synthesis step exactly once
per window"): while the buffer holds a full window, the window is taken off
the buffer and synthesised for every session.  `fuel` bounds the number of
windows; the buffer's length is enough. -/
def drainWindows (M : SynthesisModel) (w : Nat) :
    Nat → List Byte → List Session → List Byte × List Session
  | 0, buffer, sessions => (buffer, sessions)
  | fuel + 1, buffer, sessions =>
    if 0 < w ∧ w ≤ buffer.length then
      drainWindows M w fuel (buffer.drop w) (sessions.map (Session.synthesize M (buffer.take w)))
    else (buffer, sessions)

/-- Modelled from the spec: the number of output frames that are due at a
clock value (section 4.4, "each session's clock determines which buffered
output frame(s) become due, scaled by playback_size_ms"): one per elapsed
output cadence. -/
def dueCount (playback_size_ms clock : ℚ) : Nat :=
  if playback_size_ms ≤ 0 then 0 else (Rat.floor (clock / playback_size_ms)).toNat

/-- Modelled from the spec: the currently-due frame of a session (section
4.4, pull accessors): the latest buffered frame that is due, `none` when none
is due yet. -/
def Session.dueFrame (playback_size_ms : ℚ) (s : Session) : Option OutputFrame :=
  match min (dueCount playback_size_ms s.clock) s.pending.length with
  | 0 => none
  | k + 1 => s.pending.get? k

/-! ### The transceiver functions -/

/-- Modelled from the spec: `SG_STDLN_DestroyTransceiver` (section 3, the
transceiver is "destroyed explicitly"; section 7, a destroyed pointer is an
invalid handle); the body is not in the header. -/
def SG_STDLN_DestroyTransceiver (transceiver : SG_TransceiverPtr) : Outcome Unit :=
  match transceiver with
  | none => .fail .SG_ERROR_INVALID_TRANSCEIVER none
  | some _ => ⟨.SG_ERROR_OK, none, none⟩

/-- Modelled from the spec: `SG_STDLN_ConnectUser` (section 4.1, connect):
a duplicate ID is an error, `InvalidUserId`; a config the model rejects is
`InputFailure`; otherwise a fresh session is allocated with its output clock
at 0.  The body is not in the header. -/
def SG_STDLN_ConnectUser (transceiver : SG_TransceiverPtr) (user_ID : UserID)
    (config : List Byte) : Outcome Unit :=
  match transceiver with
  | none => .fail .SG_ERROR_INVALID_TRANSCEIVER none
  | some t =>
    if connected t user_ID then .fail .SG_ERROR_INVALID_USER_ID (some t)
    else match t.model.negotiate config with
      | none => .fail .SG_ERROR_INPUT_FAILURE (some t)
      | some traits =>
        ⟨.SG_ERROR_OK,
          some { t with sessions := t.sessions ++
            [{ user_ID := user_ID, config := config, traits := traits, clock := 0,
               pending := [], synth_state := t.model.initial_state }] },
          none⟩

/-- Modelled from the spec: `SG_STDLN_DisconnectUser` (section 4.1,
disconnect): fails with `InvalidUserId` for a user that is not connected,
otherwise releases the user's session with all its buffered output.  The body
is not in the header. -/
def SG_STDLN_DisconnectUser (transceiver : SG_TransceiverPtr) (user_ID : UserID) :
    Outcome Unit :=
  match transceiver with
  | none => .fail .SG_ERROR_INVALID_TRANSCEIVER none
  | some t =>
    if connected t user_ID then
      ⟨.SG_ERROR_OK,
        some { t with sessions := t.sessions.filter (fun s => !(s.user_ID == user_ID)) },
        none⟩
    else .fail .SG_ERROR_INVALID_USER_ID (some t)

/-- Modelled from the spec: `SG_STDLN_GetDecodingConfiguration` (section 4.1,
get_decoding_configuration, transceiver-global as the declaration takes no
user ID); the body is not in the header. -/
def SG_STDLN_GetDecodingConfiguration (transceiver : SG_TransceiverPtr) :
    Outcome (List Byte) :=
  match transceiver with
  | none => .fail .SG_ERROR_INVALID_TRANSCEIVER none
  | some t => ⟨.SG_ERROR_OK, some t, some t.model.decoding_configuration⟩

/-- Modelled from the spec: `SG_STDLN_Receive` (section 4.3, receive): fails
with `InvalidUserId` for a user that is not connected; a malformed packet
fails with `InputFailure` and changes nothing; otherwise the decoded frames
are fed into the user's session.  The body is not in the header. -/
def SG_STDLN_Receive (transceiver : SG_TransceiverPtr) (user_ID : UserID)
    (packet : List Byte) : Outcome Unit :=
  match transceiver with
  | none => .fail .SG_ERROR_INVALID_TRANSCEIVER none
  | some t =>
    match findSession t.sessions user_ID with
    | none => .fail .SG_ERROR_INVALID_USER_ID (some t)
    | some s =>
      match t.model.decode s.config packet with
      | none => .fail .SG_ERROR_INPUT_FAILURE (some t)
      | some frames =>
        ⟨.SG_ERROR_OK,
          some { t with sessions := t.sessions.map (fun x =>
            if x.user_ID == user_ID then { x with pending := x.pending ++ frames } else x) },
          none⟩

/-- Modelled from the spec: `SG_STDLN_SynchronizeClock`, whose body is not in
the header.  The specification gives the call no behaviour beyond the invalid
handle of its section 7, and the header's comment on the declaration is "Does
nothing?": on a valid transceiver the call changes nothing. -/
def SG_STDLN_SynchronizeClock (transceiver : SG_TransceiverPtr) (_current_time : List Byte) :
    Outcome Unit :=
  match transceiver with
  | none => .fail .SG_ERROR_INVALID_TRANSCEIVER none
  | some t => ⟨.SG_ERROR_OK, some t, none⟩

/-- Modelled from the spec: `SG_GetAnimationNodeInfo` (section 3, nodes are
"enumerable per user/node index"; section 7, an introspection miss is
`InvalidAnimationNode`); the body is not in the header. -/
def SG_GetAnimationNodeInfo (transceiver : SG_TransceiverPtr) (user_ID : UserID)
    (node_index : UInt32Val) : Outcome SG_AnimationNodeInfo :=
  match transceiver with
  | none => .fail .SG_ERROR_INVALID_TRANSCEIVER none
  | some t =>
    match findSession t.sessions user_ID with
    | none => .fail .SG_ERROR_INVALID_USER_ID (some t)
    | some _ =>
      match t.model.nodes.get? node_index.val with
      | none => .fail .SG_ERROR_INVALID_ANIMATION_NODE (some t)
      | some n => ⟨.SG_ERROR_OK, some t, some n.info⟩

/-- Modelled from the spec: `SG_GetAnimationChannelName` (section 7:
`InvalidAnimationNode`, `InvalidAnimationChannel`, and `BufferOverflow` when
the caller's buffer is too small for the name and its NUL); the body is not in
the header. -/
def SG_GetAnimationChannelName (transceiver : SG_TransceiverPtr) (user_ID : UserID)
    (node_name : List Byte) (channel_idx : UInt32Val) (channel_name_size : Nat) :
    Outcome (List Byte) :=
  match transceiver with
  | none => .fail .SG_ERROR_INVALID_TRANSCEIVER none
  | some t =>
    match findSession t.sessions user_ID with
    | none => .fail .SG_ERROR_INVALID_USER_ID (some t)
    | some _ =>
      match t.model.nodes.find? (fun n => cstr n.info.name.val == node_name) with
      | none => .fail .SG_ERROR_INVALID_ANIMATION_NODE (some t)
      | some n =>
        match n.channels.get? channel_idx.val with
        | none => .fail .SG_ERROR_INVALID_ANIMATION_CHANNEL (some t)
        | some name =>
          if channel_name_size < name.length + 1 then
            .fail .SG_ERROR_BUFFER_OVERFLOW (some t)
          else ⟨.SG_ERROR_OK, some t, some name⟩

/-- Modelled from the spec: `SG_UpdateInputTraits` (section 4.2,
update_input_traits): the new traits are validated again, and the update is
rejected while audio buffered under other traits is unconsumed (the "reject"
policy); the body is not in the header. -/
def SG_UpdateInputTraits (input_traits : SG_InputTraits) (transceiver : SG_TransceiverPtr) :
    Outcome Unit :=
  match transceiver with
  | none => .fail .SG_ERROR_INVALID_TRANSCEIVER none
  | some t =>
    if !validTraits t input_traits then .fail .SG_ERROR_INVALID_INPUT_TRAITS (some t)
    else if !t.input_buffer.isEmpty && input_traits != t.input_traits then
      .fail .SG_ERROR_INVALID_INPUT_TRAITS (some t)
    else ⟨.SG_ERROR_OK, some { t with input_traits := input_traits }, none⟩

/-- Modelled from the spec: `SG_GetOutputTraits` (section 3, OutputTraits are
per user and read-only to callers); the body is not in the header. -/
def SG_GetOutputTraits (transceiver : SG_TransceiverPtr) (user_ID : UserID) :
    Outcome SG_OutputTraits :=
  match transceiver with
  | none => .fail .SG_ERROR_INVALID_TRANSCEIVER none
  | some t =>
    match findSession t.sessions user_ID with
    | none => .fail .SG_ERROR_INVALID_USER_ID (some t)
    | some s => ⟨.SG_ERROR_OK, some t, some s.traits⟩

/-- Modelled from the spec: `SG_Input` (section 4.4, input, and section 8): a
`sample_count` inconsistent with the configured input traits fails with
`InvalidInputTraits`, malformed audio fails with `InputFailure`, both without
touching the buffer; otherwise the samples are appended to the rolling input
buffer and every full analysis window is synthesised once.  As declared, the
call is given the two pointers without a size: the audio it reads is
`sample_count` samples of the configured sample type behind `audio_data`.  The
user payload goes to the synthesis model with the audio and is not followed
here.  The body is not in the header. -/
def SG_Input (transceiver : SG_TransceiverPtr) (audio_data : BytePtr)
    (sample_count : UInt32Val) (_user_data : Option BytePtr) : Outcome Unit :=
  match transceiver with
  | none => .fail .SG_ERROR_INVALID_TRANSCEIVER none
  | some t =>
    if !t.model.sample_count_ok t.input_traits sample_count then
      .fail .SG_ERROR_INVALID_INPUT_TRAITS (some t)
    else
      let samples := readBytes audio_data (sample_count.val * t.input_traits.sample_type.bytes)
      if !t.model.audio_ok samples then .fail .SG_ERROR_INPUT_FAILURE (some t)
      else
        let buffer := t.input_buffer ++ samples
        let r := drainWindows t.model (windowBytes t) buffer.length buffer t.sessions
        ⟨.SG_ERROR_OK, some { t with input_buffer := r.1, sessions := r.2 }, none⟩

/-- Modelled from the spec: `SG_AdvanceOutput` (section 4.4, advance_output,
and section 3, "the output clock for each session is monotonic"): every
session's output clock advances by `delta_ms`.  The specification gives a
negative `delta_ms` no behaviour of its own; as its clocks never go back, a
`delta_ms` that is not positive advances nothing.  The body is not in the
header. -/
def SG_AdvanceOutput (transceiver : SG_TransceiverPtr) (delta_ms : ℚ) : Outcome Unit :=
  match transceiver with
  | none => .fail .SG_ERROR_INVALID_TRANSCEIVER none
  | some t =>
    if delta_ms ≤ 0 then ⟨.SG_ERROR_OK, some t, none⟩
    else
      ⟨.SG_ERROR_OK,
        some { t with sessions := t.sessions.map (fun s =>
          { s with clock := s.clock + delta_ms }) },
        none⟩

/-- Modelled from the spec: `SG_GetOutputAnimation` (section 4.4, pull
accessors): fails with `InvalidUserId` for a user that is not connected, with
`InvalidOutputTraits` when the user's output traits do not enable animation,
with `InvalidAnimationNode` for an unknown node; otherwise gives the node's
channel values in the currently-due frame, nothing when no frame is due.  The
body is not in the header. -/
def SG_GetOutputAnimation (transceiver : SG_TransceiverPtr) (user_ID : UserID)
    (node_name : List Byte) : Outcome (List ℚ) :=
  match transceiver with
  | none => .fail .SG_ERROR_INVALID_TRANSCEIVER none
  | some t =>
    match findSession t.sessions user_ID with
    | none => .fail .SG_ERROR_INVALID_USER_ID (some t)
    | some s =>
      if !flagSet s.traits.output_type .SG_OUTPUT_ANIMATION then
        .fail .SG_ERROR_INVALID_OUTPUT_TRAITS (some t)
      else if !t.model.nodes.any (fun n => cstr n.info.name.val == node_name) then
        .fail .SG_ERROR_INVALID_ANIMATION_NODE (some t)
      else
        ⟨.SG_ERROR_OK, some t,
          (s.dueFrame t.playback_size_ms).bind (fun f =>
            (f.animation.find? (fun a => a.1 == node_name)).map Prod.snd)⟩

/-- Modelled from the spec: `SG_GetOutputAudio` (section 4.4, pull
accessors): as `SG_GetOutputAnimation`, for the audio stream; gives the audio
bytes and the sample count of the currently-due frame.  The body is not in the
header. -/
def SG_GetOutputAudio (transceiver : SG_TransceiverPtr) (user_ID : UserID) :
    Outcome (List Byte × UInt32Val) :=
  match transceiver with
  | none => .fail .SG_ERROR_INVALID_TRANSCEIVER none
  | some t =>
    match findSession t.sessions user_ID with
    | none => .fail .SG_ERROR_INVALID_USER_ID (some t)
    | some s =>
      if !flagSet s.traits.output_type SG_OutputDataType.SG_OUTPUT_AUDIO then
        .fail .SG_ERROR_INVALID_OUTPUT_TRAITS (some t)
      else
        ⟨.SG_ERROR_OK, some t,
          (s.dueFrame t.playback_size_ms).map (fun f => (f.audio, f.audio_sample_count))⟩

/-- Modelled from the spec: `SG_GetOutputUserData` (section 4.4, pull
accessors): as `SG_GetOutputAnimation`, for the user-data stream.  The body is
not in the header. -/
def SG_GetOutputUserData (transceiver : SG_TransceiverPtr) (user_ID : UserID) :
    Outcome (List Byte × UInt32Val) :=
  match transceiver with
  | none => .fail .SG_ERROR_INVALID_TRANSCEIVER none
  | some t =>
    match findSession t.sessions user_ID with
    | none => .fail .SG_ERROR_INVALID_USER_ID (some t)
    | some s =>
      if !flagSet s.traits.output_type .SG_OUTPUT_USER_DEFINED then
        .fail .SG_ERROR_INVALID_OUTPUT_TRAITS (some t)
      else
        ⟨.SG_ERROR_OK, some t,
          (s.dueFrame t.playback_size_ms).map (fun f => (f.user_data, f.user_num_samples))⟩

/-- Modelled from the spec: `SG_GetMoodList` (section 4.5; section 6,
buffer-output operations signal buffer-overflow when the caller's buffer is
too small); the body is not in the header. -/
def SG_GetMoodList (transceiver : SG_TransceiverPtr) (mood_list_size : Nat) :
    Outcome (List Byte) :=
  match transceiver with
  | none => .fail .SG_ERROR_INVALID_TRANSCEIVER none
  | some t =>
    if mood_list_size < t.model.mood_list.length + 1 then
      .fail .SG_ERROR_BUFFER_OVERFLOW (some t)
    else ⟨.SG_ERROR_OK, some t, some t.model.mood_list⟩

/-- Modelled from the spec: `SG_GetCurrentMood` (section 4.5); the body is not
in the header. -/
def SG_GetCurrentMood (transceiver : SG_TransceiverPtr) (mood_size : Nat) :
    Outcome (List Byte) :=
  match transceiver with
  | none => .fail .SG_ERROR_INVALID_TRANSCEIVER none
  | some t =>
    if mood_size < t.mood.length + 1 then .fail .SG_ERROR_BUFFER_OVERFLOW (some t)
    else ⟨.SG_ERROR_OK, some t, some t.mood⟩

/-- Modelled from the spec: `SG_SetMood` (section 4.5, set_mood): a name that
is not in the mood list is accepted and has no effect (the
"silently-accepted-but-ineffective" policy); the body is not in the header. -/
def SG_SetMood (transceiver : SG_TransceiverPtr) (mood : List Byte) : Outcome Unit :=
  match transceiver with
  | none => .fail .SG_ERROR_INVALID_TRANSCEIVER none
  | some t =>
    if t.model.moods.contains mood then ⟨.SG_ERROR_OK, some { t with mood := mood }, none⟩
    else ⟨.SG_ERROR_OK, some t, none⟩

/-- Modelled from the spec: `SG_GetCurrentIntensity` (section 4.5); the body
is not in the header. -/
def SG_GetCurrentIntensity (transceiver : SG_TransceiverPtr) : Outcome ℚ :=
  match transceiver with
  | none => .fail .SG_ERROR_INVALID_TRANSCEIVER none
  | some t => ⟨.SG_ERROR_OK, some t, some t.intensity⟩

/-- Modelled from the spec: `SG_SetIntensity` (section 4.5, "get/set_intensity
clamp to [0,1] rather than erroring on out-of-range input"); the body is not
in the header. -/
def SG_SetIntensity (transceiver : SG_TransceiverPtr) (intensity : ℚ) : Outcome Unit :=
  match transceiver with
  | none => .fail .SG_ERROR_INVALID_TRANSCEIVER none
  | some t =>
    let stored := if intensity < 0 then 0 else if 1 < intensity then 1 else intensity
    ⟨.SG_ERROR_OK, some { t with intensity := stored }, none⟩

/-! ### Calls and clocks -/

/-- One call of a function that takes a transceiver, with the arguments the
call passes besides the transceiver. -/
inductive Call where
  | SG_STDLN_DestroyTransceiver
  | SG_STDLN_ConnectUser (user_ID : UserID) (config : List Byte)
  | SG_STDLN_DisconnectUser (user_ID : UserID)
  | SG_STDLN_GetDecodingConfiguration
  | SG_STDLN_Receive (user_ID : UserID) (packet : List Byte)
  | SG_STDLN_SynchronizeClock (current_time : List Byte)
  | SG_GetAnimationNodeInfo (user_ID : UserID) (node_index : UInt32Val)
  | SG_GetAnimationChannelName (user_ID : UserID) (node_name : List Byte)
      (channel_idx : UInt32Val) (channel_name_size : Nat)
  | SG_UpdateInputTraits (input_traits : SG_InputTraits)
  | SG_GetOutputTraits (user_ID : UserID)
  | SG_Input (audio_data : BytePtr) (sample_count : UInt32Val)
      (user_data : Option BytePtr)
  | SG_AdvanceOutput (delta_ms : ℚ)
  | SG_GetOutputAnimation (user_ID : UserID) (node_name : List Byte)
  | SG_GetOutputAudio (user_ID : UserID)
  | SG_GetOutputUserData (user_ID : UserID)
  | SG_GetMoodList (mood_list_size : Nat)
  | SG_GetCurrentMood (mood_size : Nat)
  | SG_SetMood (mood : List Byte)
  | SG_GetCurrentIntensity
  | SG_SetIntensity (intensity : ℚ)

/-- The returned error and the transceiver after a call. -/
def Call.run (p : SG_TransceiverPtr) : Call → SG_Error × SG_TransceiverPtr
  | .SG_STDLN_DestroyTransceiver =>
    let r := SGCom.SG_STDLN_DestroyTransceiver p; (r.err, r.next)
  | .SG_STDLN_ConnectUser U config =>
    let r := SGCom.SG_STDLN_ConnectUser p U config; (r.err, r.next)
  | .SG_STDLN_DisconnectUser U =>
    let r := SGCom.SG_STDLN_DisconnectUser p U; (r.err, r.next)
  | .SG_STDLN_GetDecodingConfiguration =>
    let r := SGCom.SG_STDLN_GetDecodingConfiguration p; (r.err, r.next)
  | .SG_STDLN_Receive U packet =>
    let r := SGCom.SG_STDLN_Receive p U packet; (r.err, r.next)
  | .SG_STDLN_SynchronizeClock current_time =>
    let r := SGCom.SG_STDLN_SynchronizeClock p current_time; (r.err, r.next)
  | .SG_GetAnimationNodeInfo U node_index =>
    let r := SGCom.SG_GetAnimationNodeInfo p U node_index; (r.err, r.next)
  | .SG_GetAnimationChannelName U node_name channel_idx channel_name_size =>
    let r := SGCom.SG_GetAnimationChannelName p U node_name channel_idx channel_name_size
    (r.err, r.next)
  | .SG_UpdateInputTraits input_traits =>
    let r := SGCom.SG_UpdateInputTraits input_traits p; (r.err, r.next)
  | .SG_GetOutputTraits U =>
    let r := SGCom.SG_GetOutputTraits p U; (r.err, r.next)
  | .SG_Input audio_data sample_count user_data =>
    let r := SGCom.SG_Input p audio_data sample_count user_data; (r.err, r.next)
  | .SG_AdvanceOutput delta_ms =>
    let r := SGCom.SG_AdvanceOutput p delta_ms; (r.err, r.next)
  | .SG_GetOutputAnimation U node_name =>
    let r := SGCom.SG_GetOutputAnimation p U node_name; (r.err, r.next)
  | .SG_GetOutputAudio U =>
    let r := SGCom.SG_GetOutputAudio p U; (r.err, r.next)
  | .SG_GetOutputUserData U =>
    let r := SGCom.SG_GetOutputUserData p U; (r.err, r.next)
  | .SG_GetMoodList mood_list_size =>
    let r := SGCom.SG_GetMoodList p mood_list_size; (r.err, r.next)
  | .SG_GetCurrentMood mood_size =>
    let r := SGCom.SG_GetCurrentMood p mood_size; (r.err, r.next)
  | .SG_SetMood mood =>
    let r := SGCom.SG_SetMood p mood; (r.err, r.next)
  | .SG_GetCurrentIntensity =>
    let r := SGCom.SG_GetCurrentIntensity p; (r.err, r.next)
  | .SG_SetIntensity intensity =>
    let r := SGCom.SG_SetIntensity p intensity; (r.err, r.next)

/-- Whether a call is a call of `SG_AdvanceOutput`. -/
def Call.isAdvance : Call → Bool
  | .SG_AdvanceOutput _ => true
  | _ => false

/-- The sessions of the transceiver behind a pointer, none behind an invalid
pointer. -/
def sessionsOf (p : SG_TransceiverPtr) : List Session :=
  match p with
  | none => []
  | some t => t.sessions

/-- The output clocks of the sessions behind a pointer, each with its user
ID, in session-table order. -/
def clocks (p : SG_TransceiverPtr) : List (UserID × ℚ) :=
  (sessionsOf p).map (fun s => (s.user_ID, s.clock))

/-- The output clock of user `U`'s session, `none` when `U` is not
connected. -/
def clockOf (p : SG_TransceiverPtr) (U : UserID) : Option ℚ :=
  (findSession (sessionsOf p) U).map (fun s => s.clock)

/-- The length of the rolling input buffer behind a pointer. -/
def inputBufferLength (p : SG_TransceiverPtr) : Option Nat :=
  p.map (fun t => t.input_buffer.length)

/-! ### The process-wide engine

The four exported functions that return an `SG_Error` and take no transceiver
act on the process-wide engine state, which holds every transceiver created
so far. -/

/-- Modelled from the spec: what the engine gets from outside itself, the
licensing service and the decoder of the algorithm and character blobs
(section 1 puts licensing and the synthesis algorithm out of scope); nothing
of it is in the header. -/
structure Host where
  /-- Whether licensing initialises. -/
  license_init : Bool
  /-- Whether a license can be checked out. -/
  license_checkout : Bool
  /-- The synthesis model that an algorithm blob and a character blob give. -/
  load : List Byte → List Byte → SynthesisModel

/-- Modelled from the spec: the process-wide engine state (section 6,
"initialize/shutdown the process-wide engine state"; section 9, a
"process-lifetime-scoped context object"): whether the engine is initialised,
the logging level, and the transceivers created so far, a destroyed one being
`none`.  A transceiver handle is a position in `transceivers`.  The header has
no such state. -/
structure EngineState where
  initialized : Bool
  level : SG_LogLevel
  transceivers : List SG_TransceiverPtr

/-- The transceiver behind a handle: `none` for a handle that was never given
out or whose transceiver was destroyed. -/
def lookupHandle : List SG_TransceiverPtr → Nat → SG_TransceiverPtr
  | [], _ => none
  | p :: _, 0 => p
  | _ :: rest, h + 1 => lookupHandle rest h

/-- The sessions of every transceiver of the engine, by handle. -/
def EngineState.sessions (e : EngineState) : List (List Session) :=
  e.transceivers.map sessionsOf

/-- Modelled from the spec: `SG_Initialize` (section 6, lifecycle; section 7,
licensing errors are "fatal at initialization, engine unusable thereafter"):
when licensing does not initialise the call fails with
`SG_ERROR_LICENSE_INIT` and the engine stays uninitialised.  The body is not
in the header. -/
def SG_Initialize (host : Host) (e : EngineState) : SG_Error × EngineState :=
  if host.license_init then (.SG_ERROR_OK, { e with initialized := true })
  else (.SG_ERROR_LICENSE_INIT, e)

/-- Modelled from the spec: `SG_Shutdown` (section 6, lifecycle): the engine
is no longer initialised.  Transceivers are "destroyed explicitly" (section
3), so the call destroys none.  The body is not in the header. -/
def SG_Shutdown (e : EngineState) : SG_Error × EngineState :=
  (.SG_ERROR_OK, { e with initialized := false })

/-- Modelled from the spec: `SG_SetLoggingLevel`; the specification leaves the
logging subsystem out (section 1) and names no error for it, so the call
stores the level.  The body is not in the header. -/
def SG_SetLoggingLevel (level : SG_LogLevel) (e : EngineState) : SG_Error × EngineState :=
  (.SG_ERROR_OK, { e with level := level })

/-- Modelled from the spec: `SG_STDLN_CreateTransceiver` (section 6, "create
... a Transceiver given algorithm+character model blobs, input traits, desired
output types, animation type, and timing parameters"; section 4.2, the traits
are validated; section 7, after a licensing failure the engine is unusable):
on an engine that is not initialised, or when no license can be checked out,
the call fails with `SG_ERROR_LICENSE_CHECKOUT`; invalid input traits fail
with `SG_ERROR_INVALID_INPUT_TRAITS`; otherwise a transceiver with no session,
an empty input buffer and the model's default mood and intensity is added,
and its handle is written through the out-pointer.  The transmit callback and
the parameter `unk` are not followed.  The body is not in the header. -/
def SG_STDLN_CreateTransceiver (host : Host) (e : EngineState)
    (algorithm_data character_data : List Byte) (input_traits : SG_InputTraits)
    (output_type : Nat) (anim_type : SG_AnimationType) (_unk : UInt32Val)
    (input_size_seconds playback_size_ms : ℚ) : SG_Error × EngineState × Option Nat :=
  if !e.initialized || !host.license_checkout then (.SG_ERROR_LICENSE_CHECKOUT, e, none)
  else
    let M := host.load algorithm_data character_data
    let t : SG_Transceiver :=
      { model := M, input_traits := input_traits, output_type := output_type,
        anim_type := anim_type, input_size_seconds := input_size_seconds,
        playback_size_ms := playback_size_ms, sessions := [], input_buffer := [],
        mood := M.default_mood, intensity := M.default_intensity }
    if !validTraits t input_traits then (.SG_ERROR_INVALID_INPUT_TRAITS, e, none)
    else
      (.SG_ERROR_OK, { e with transceivers := e.transceivers ++ [some t] },
        some e.transceivers.length)

/-- One call of an exported function that returns an `SG_Error`: one of the
four process-wide functions, or a function that takes a transceiver, called
on a handle. -/
inductive EngineCall where
  | SG_Initialize
  | SG_Shutdown
  | SG_SetLoggingLevel (level : SG_LogLevel)
  | SG_STDLN_CreateTransceiver (algorithm_data character_data : List Byte)
      (input_traits : SG_InputTraits) (output_type : Nat) (anim_type : SG_AnimationType)
      (unk : UInt32Val) (input_size_seconds playback_size_ms : ℚ)
  | onTransceiver (handle : Nat) (c : Call)

/-- The returned error and the engine state after a call.  A call on a handle
runs on the transceiver behind the handle, and the transceiver after the call
takes its place. -/
def EngineCall.run (host : Host) (e : EngineState) : EngineCall → SG_Error × EngineState
  | .SG_Initialize => SGCom.SG_Initialize host e
  | .SG_Shutdown => SGCom.SG_Shutdown e
  | .SG_SetLoggingLevel level => SGCom.SG_SetLoggingLevel level e
  | .SG_STDLN_CreateTransceiver algorithm_data character_data input_traits output_type
      anim_type unk input_size_seconds playback_size_ms =>
    let r := SGCom.SG_STDLN_CreateTransceiver host e algorithm_data character_data
      input_traits output_type anim_type unk input_size_seconds playback_size_ms
    (r.1, r.2.1)
  | .onTransceiver handle c =>
    let r := c.run (lookupHandle e.transceivers handle)
    (r.1, { e with transceivers := e.transceivers.set handle r.2 })

/-- The exported function a call of a transceiver function is a call of. -/
def Call.function : Call → SG_Export
  | .SG_STDLN_DestroyTransceiver => .SG_STDLN_DestroyTransceiver
  | .SG_STDLN_ConnectUser _ _ => .SG_STDLN_ConnectUser
  | .SG_STDLN_DisconnectUser _ => .SG_STDLN_DisconnectUser
  | .SG_STDLN_GetDecodingConfiguration => .SG_STDLN_GetDecodingConfiguration
  | .SG_STDLN_Receive _ _ => .SG_STDLN_Receive
  | .SG_STDLN_SynchronizeClock _ => .SG_STDLN_SynchronizeClock
  | .SG_GetAnimationNodeInfo _ _ => .SG_GetAnimationNodeInfo
  | .SG_GetAnimationChannelName _ _ _ _ => .SG_GetAnimationChannelName
  | .SG_UpdateInputTraits _ => .SG_UpdateInputTraits
  | .SG_GetOutputTraits _ => .SG_GetOutputTraits
  | .SG_Input _ _ _ => .SG_Input
  | .SG_AdvanceOutput _ => .SG_AdvanceOutput
  | .SG_GetOutputAnimation _ _ => .SG_GetOutputAnimation
  | .SG_GetOutputAudio _ => .SG_GetOutputAudio
  | .SG_GetOutputUserData _ => .SG_GetOutputUserData
  | .SG_GetMoodList _ => .SG_GetMoodList
  | .SG_GetCurrentMood _ => .SG_GetCurrentMood
  | .SG_SetMood _ => .SG_SetMood
  | .SG_GetCurrentIntensity => .SG_GetCurrentIntensity
  | .SG_SetIntensity _ => .SG_SetIntensity

/-- The exported function a call is a call of. -/
def EngineCall.function : EngineCall → SG_Export
  | .SG_Initialize => .SG_Initialize
  | .SG_Shutdown => .SG_Shutdown
  | .SG_SetLoggingLevel _ => .SG_SetLoggingLevel
  | .SG_STDLN_CreateTransceiver _ _ _ _ _ _ _ _ => .SG_STDLN_CreateTransceiver
  | .onTransceiver _ c => c.function

/-- A call of each exported function that returns an `SG_Error`, with
arguments of no interest; `none` for the two version getters. -/
def sampleCallOf : SG_Export → Option EngineCall
  | .SG_Initialize => some .SG_Initialize
  | .SG_Shutdown => some .SG_Shutdown
  | .SG_GetVersionString => none
  | .SG_GetVersionNumber => none
  | .SG_SetLoggingLevel => some (.SG_SetLoggingLevel .SG_LOG_NONE)
  | .SG_STDLN_CreateTransceiver =>
    some (.SG_STDLN_CreateTransceiver [] [] ⟨.SG_SAMPLE_PCM16, .SG_RATE_16KHZ, 0⟩ 2
      .SG_ANIM_DEFORMER 0 1 10)
  | .SG_STDLN_DestroyTransceiver => some (.onTransceiver 0 .SG_STDLN_DestroyTransceiver)
  | .SG_STDLN_ConnectUser => some (.onTransceiver 0 (.SG_STDLN_ConnectUser 0 []))
  | .SG_STDLN_DisconnectUser => some (.onTransceiver 0 (.SG_STDLN_DisconnectUser 0))
  | .SG_STDLN_GetDecodingConfiguration =>
    some (.onTransceiver 0 .SG_STDLN_GetDecodingConfiguration)
  | .SG_STDLN_Receive => some (.onTransceiver 0 (.SG_STDLN_Receive 0 []))
  | .SG_STDLN_SynchronizeClock => some (.onTransceiver 0 (.SG_STDLN_SynchronizeClock []))
  | .SG_GetAnimationNodeInfo => some (.onTransceiver 0 (.SG_GetAnimationNodeInfo 0 0))
  | .SG_GetAnimationChannelName =>
    some (.onTransceiver 0 (.SG_GetAnimationChannelName 0 [] 0 0))
  | .SG_UpdateInputTraits =>
    some (.onTransceiver 0 (.SG_UpdateInputTraits ⟨.SG_SAMPLE_PCM16, .SG_RATE_16KHZ, 0⟩))
  | .SG_GetOutputTraits => some (.onTransceiver 0 (.SG_GetOutputTraits 0))
  | .SG_Input => some (.onTransceiver 0 (.SG_Input (fun _ => 0) 0 none))
  | .SG_AdvanceOutput => some (.onTransceiver 0 (.SG_AdvanceOutput 0))
  | .SG_GetOutputAnimation => some (.onTransceiver 0 (.SG_GetOutputAnimation 0 []))
  | .SG_GetOutputAudio => some (.onTransceiver 0 (.SG_GetOutputAudio 0))
  | .SG_GetOutputUserData => some (.onTransceiver 0 (.SG_GetOutputUserData 0))
  | .SG_GetMoodList => some (.onTransceiver 0 (.SG_GetMoodList 0))
  | .SG_GetCurrentMood => some (.onTransceiver 0 (.SG_GetCurrentMood 0))
  | .SG_SetMood => some (.onTransceiver 0 (.SG_SetMood []))
  | .SG_GetCurrentIntensity => some (.onTransceiver 0 .SG_GetCurrentIntensity)
  | .SG_SetIntensity => some (.onTransceiver 0 (.SG_SetIntensity 0))

/-! ### A concrete transceiver -/

/-- A synthesis model for concrete runs: it supports every format, takes
every config and packet, and makes no frame; a sample count is consistent
with the traits when it is a whole number of milliseconds at the configured
rate. -/
def sampleModel : SynthesisModel where
  supports := fun _ _ => true
  sample_count_ok := fun traits n => n.val % traits.sample_rate.kHz == 0
  audio_ok := fun _ => true
  negotiate := fun _ => some ⟨2, 0, .SG_SAMPLE_PCM16, 16000, 0, 0⟩
  initial_state := []
  synthesize := fun _ st => ([], st)
  decode := fun _ _ => some []
  decoding_configuration := []
  nodes := []
  mood_list := []
  moods := []
  default_mood := []
  default_intensity := 1

/-- A session of user `U` with clock `c` under `sampleModel`. -/
def sampleSession (U : UserID) (c : ℚ) : Session :=
  ⟨U, [], ⟨2, 0, .SG_SAMPLE_PCM16, 16000, 0, 0⟩, c, [], []⟩

/-- A transceiver with PCM16 input at 16 kHz, animation output, and user 42
connected with its clock at 5 ms. -/
def sampleTransceiver : SG_Transceiver where
  model := sampleModel
  input_traits := ⟨.SG_SAMPLE_PCM16, .SG_RATE_16KHZ, 0⟩
  output_type := 2
  anim_type := .SG_ANIM_DEFORMER
  input_size_seconds := 1
  playback_size_ms := 10
  sessions := [sampleSession 42 5]
  input_buffer := []
  mood := []
  intensity := 1 / 2

/-- A host for concrete runs: licensing does not initialise, and every pair
of blobs gives the sample model. -/
def sampleHost : Host where
  license_init := false
  license_checkout := false
  load := fun _ _ => sampleModel

/-- An initialised engine whose one transceiver, with handle 0, is the sample
transceiver. -/
def sampleEngine : EngineState where
  initialized := true
  level := .SG_LOG_NONE
  transceivers := [some sampleTransceiver]

/-- A node info for concrete runs: a joint named "abc" with three
channels. -/
def sampleNodeInfo : SG_AnimationNodeInfo where
  name := ⟨[97, 98, 99] ++ List.replicate 1021 0, by
    rw [List.length_append, List.length_replicate]; rfl⟩
  type := .SG_NODE_JOINT
  channel_count := 3

/-! # Theorems -/

/-! ## Helper lemmas -/

theorem lor_eq_zero_iff (a b : Nat) : a ||| b = 0 ↔ a = 0 ∧ b = 0 := by
  constructor
  · intro h
    have key : ∀ i, a.testBit i = false ∧ b.testBit i = false := by
      intro i
      have hi := congrArg (fun n => n.testBit i) h
      simpa [Nat.testBit_or] using hi
    refine ⟨Nat.eq_of_testBit_eq ?_, Nat.eq_of_testBit_eq ?_⟩
    · intro i; simp [(key i).1]
    · intro i; simp [(key i).2]
  · rintro ⟨rfl, rfl⟩; rfl

theorem outputMask_cons (x : SG_OutputDataType) (S : List SG_OutputDataType) :
    outputMask (x :: S) = x.toNat ||| outputMask S := rfl

theorem flag_and_flag :
    ∀ a b : SG_OutputDataType, a ∈ outputFlags → b ∈ outputFlags →
      (a.toNat &&& b.toNat ≠ 0 ↔ a = b) := by decide

theorem outputMask_and_ne_zero (S : List SG_OutputDataType)
    (hS : ∀ x ∈ S, x ∈ outputFlags) (f : SG_OutputDataType) (hf : f ∈ outputFlags) :
    outputMask S &&& f.toNat ≠ 0 ↔ f ∈ S := by
  induction S with
  | nil => simp [outputMask]
  | cons x S ih =>
    have hx : x ∈ outputFlags := hS x (List.mem_cons_self x S)
    have hS2 : ∀ y ∈ S, y ∈ outputFlags := fun y hy => hS y (List.mem_cons_of_mem x hy)
    rw [outputMask_cons, Nat.and_distrib_right, Ne, lor_eq_zero_iff, not_and_or,
      List.mem_cons]
    constructor
    · rintro (h | h)
      · exact Or.inl ((flag_and_flag x f hx hf).1 h).symm
      · exact Or.inr ((ih hS2).1 h)
    · rintro (h | h)
      · exact Or.inl ((flag_and_flag x f hx hf).2 h.symm)
      · exact Or.inr ((ih hS2).2 h)

theorem cstrlen_lt (l : List Byte) (n : Nat) (h : cstrlen l = some n) : n < l.length := by
  induction l generalizing n with
  | nil => simp [cstrlen] at h
  | cons b rest ih =>
    unfold cstrlen at h
    split at h
    · simp at h; subst h; simp
    · cases hr : cstrlen rest with
      | none => simp [hr] at h
      | some m =>
        simp [hr] at h
        subst h
        have := ih m hr
        simp; omega

theorem cstrlen_replicate_one (n : Nat) :
    cstrlen (List.replicate n (1 : Byte) ++ [0]) = some n := by
  induction n with
  | zero => rfl
  | succ k ih =>
    rw [List.replicate_succ, List.cons_append]
    unfold cstrlen
    rw [if_neg (by decide), ih]
    rfl

theorem findSession_filter_self (ss : List Session) (U : UserID) :
    findSession (ss.filter (fun s => !(s.user_ID == U))) U = none := by
  unfold findSession
  rw [List.find?_eq_none]
  intro s hs
  have h2 := (List.mem_filter.1 hs).2
  simpa using h2

theorem connect_next_some (t : SG_Transceiver) (U : UserID) (config : List Byte) :
    ∃ t1, (SG_STDLN_ConnectUser (some t) U config).next = some t1 := by
  unfold SG_STDLN_ConnectUser
  dsimp only
  split
  · exact ⟨t, rfl⟩
  · split
    · exact ⟨t, rfl⟩
    · exact ⟨_, rfl⟩

theorem disconnect_not_connected (t : SG_Transceiver) (U : UserID) :
    ∃ t2, (SG_STDLN_DisconnectUser (some t) U).next = some t2 ∧ connected t2 U = false := by
  unfold SG_STDLN_DisconnectUser
  dsimp only
  split
  · refine ⟨_, rfl, ?_⟩
    simp only [connected, findSession_filter_self, Option.isSome_none]
  · rename_i h
    refine ⟨t, rfl, ?_⟩
    simpa using h

theorem getOutputAnimation_not_connected (t : SG_Transceiver) (U : UserID)
    (h : connected t U = false) (node_name : List Byte) :
    (SG_GetOutputAnimation (some t) U node_name).err = .SG_ERROR_INVALID_USER_ID := by
  have hf : findSession t.sessions U = none := by
    simpa [connected] using h
  simp only [SG_GetOutputAnimation, hf, Outcome.fail]

theorem synthesize_map_clocks (M : SynthesisModel) (window : List Byte) (ss : List Session) :
    (ss.map (Session.synthesize M window)).map (fun s => (s.user_ID, s.clock))
      = ss.map (fun s => (s.user_ID, s.clock)) := by
  rw [List.map_map]
  rfl

theorem drainWindows_clocks (M : SynthesisModel) (w fuel : Nat) (buffer : List Byte)
    (ss : List Session) :
    (drainWindows M w fuel buffer ss).2.map (fun s => (s.user_ID, s.clock))
      = ss.map (fun s => (s.user_ID, s.clock)) := by
  induction fuel generalizing buffer ss with
  | zero => rfl
  | succ k ih =>
    unfold drainWindows
    split
    · rw [ih, synthesize_map_clocks]
    · rfl

theorem clockOf_eq_find (p : SG_TransceiverPtr) (U : UserID) :
    clockOf p U = ((clocks p).find? (fun a => a.1 == U)).map Prod.snd := by
  unfold clockOf clocks findSession
  rw [List.find?_map, Option.map_map]
  rfl

theorem clockOf_congr (p q : SG_TransceiverPtr) (h : clocks q = clocks p) (U : UserID) :
    clockOf q U = clockOf p U := by
  rw [clockOf_eq_find, clockOf_eq_find, h]

theorem receive_clocks (p : SG_TransceiverPtr) (U : UserID) (packet : List Byte) :
    clocks (SG_STDLN_Receive p U packet).next = clocks p := by
  cases p with
  | none => rfl
  | some t =>
    unfold SG_STDLN_Receive
    dsimp only
    split
    · rfl
    · split
      · rfl
      · simp only [clocks, sessionsOf, List.map_map]
        apply List.map_congr_left
        intro x _
        simp only [Function.comp]
        split <;> rfl

theorem input_clocks (p : SG_TransceiverPtr) (audio_data : BytePtr)
    (sample_count : UInt32Val) (user_data : Option BytePtr) :
    clocks (SG_Input p audio_data sample_count user_data).next = clocks p := by
  cases p with
  | none => rfl
  | some t =>
    unfold SG_Input
    dsimp only
    split
    · rfl
    · split
      · rfl
      · simp only [clocks, sessionsOf]
        exact drainWindows_clocks _ _ _ _ _

theorem advance_clocks (p : SG_TransceiverPtr) (delta_ms : ℚ) :
    List.Forall₂ (fun a b : UserID × ℚ => a.1 = b.1 ∧ a.2 ≤ b.2)
      (clocks p) (clocks (SG_AdvanceOutput p delta_ms).next) := by
  cases p with
  | none => exact List.Forall₂.nil
  | some t =>
    unfold SG_AdvanceOutput
    dsimp only
    split
    · exact List.forall₂_same.2 (fun x _ => ⟨rfl, le_refl _⟩)
    · rename_i hd
      simp only [clocks, sessionsOf, List.map_map]
      rw [List.forall₂_map_left_iff, List.forall₂_map_right_iff]
      refine List.forall₂_same.2 (fun s _ => ⟨rfl, ?_⟩)
      simp only [Function.comp]
      linarith

theorem advance_zero (p : SG_TransceiverPtr) : (SG_AdvanceOutput p 0).next = p := by
  cases p with
  | none => rfl
  | some t => simp [SG_AdvanceOutput]

theorem connect_clockOf (t : SG_Transceiver) (U : UserID) (config : List Byte) (V : UserID)
    (c : ℚ) (h : clockOf (some t) V = some c) :
    clockOf (SG_STDLN_ConnectUser (some t) U config).next V = some c := by
  unfold SG_STDLN_ConnectUser
  dsimp only
  split
  · exact h
  · split
    · exact h
    · simp only [clockOf, sessionsOf, findSession, Option.map_eq_some'] at h ⊢
      obtain ⟨s, hs, hc⟩ := h
      exact ⟨s, by rw [List.find?_append, hs]; rfl, hc⟩

theorem find_filter_other (ss : List Session) (U V : UserID) (s : Session)
    (h : (ss.filter (fun x => !(x.user_ID == U))).find? (fun x => x.user_ID == V) = some s) :
    ss.find? (fun x => x.user_ID == V) = some s := by
  induction ss with
  | nil => simp at h
  | cons x xs ih =>
    by_cases hxU : x.user_ID = U
    · have hf : (x :: xs).filter (fun x => !(x.user_ID == U))
          = xs.filter (fun x => !(x.user_ID == U)) := by
        simp [hxU]
      rw [hf] at h
      have hs := ih h
      have hsV : s.user_ID = V := by simpa using List.find?_some h
      have hsU : ¬ s.user_ID = U := by
        have hm := List.mem_of_find?_eq_some h
        simpa using (List.mem_filter.1 hm).2
      have hxV : ¬ x.user_ID = V := fun hx => hsU (hsV.trans (hx.symm.trans hxU))
      rw [List.find?_cons_of_neg _ (by simpa using hxV)]
      exact hs
    · have hf : (x :: xs).filter (fun x => !(x.user_ID == U))
          = x :: xs.filter (fun x => !(x.user_ID == U)) := by
        simp [hxU]
      rw [hf] at h
      by_cases hxV : x.user_ID = V
      · rw [List.find?_cons_of_pos _ (by simpa using hxV)] at h ⊢
        exact h
      · rw [List.find?_cons_of_neg _ (by simpa using hxV)] at h ⊢
        exact ih h

theorem disconnect_clockOf (t : SG_Transceiver) (U V : UserID) (c : ℚ)
    (h : clockOf (SG_STDLN_DisconnectUser (some t) U).next V = some c) :
    clockOf (some t) V = some c := by
  unfold SG_STDLN_DisconnectUser at h
  dsimp only at h
  split at h
  · simp only [clockOf, sessionsOf, findSession, Option.map_eq_some'] at h ⊢
    obtain ⟨s, hs, hc⟩ := h
    exact ⟨s, find_filter_other t.sessions U V s hs, hc⟩
  · exact h

theorem run_error_unchanged (p : SG_TransceiverPtr) (c : Call)
    (h : (c.run p).1 ≠ .SG_ERROR_OK) : (c.run p).2 = p := by
  cases p with
  | none => cases c <;> rfl
  | some t =>
    cases c <;>
      simp only [Call.run, SG_STDLN_DestroyTransceiver, SG_STDLN_ConnectUser,
        SG_STDLN_DisconnectUser, SG_STDLN_GetDecodingConfiguration, SG_STDLN_Receive,
        SG_STDLN_SynchronizeClock, SG_GetAnimationNodeInfo, SG_GetAnimationChannelName,
        SG_UpdateInputTraits, SG_GetOutputTraits, SG_Input, SG_AdvanceOutput,
        SG_GetOutputAnimation, SG_GetOutputAudio, SG_GetOutputUserData, SG_GetMoodList,
        SG_GetCurrentMood, SG_SetMood, SG_GetCurrentIntensity, SG_SetIntensity,
        Outcome.fail] at h ⊢ <;>
      (repeat' split) <;>
      first
        | rfl
        | (exfalso; revert h; simp_all; done)
        | (exfalso; apply h; split <;> first | rfl | (exfalso; simp_all))

theorem advance_clockOf (p : SG_TransceiverPtr) (delta_ms : ℚ) (U : UserID) (q : ℚ)
    (h : clockOf p U = some q) :
    ∃ q2, clockOf (SG_AdvanceOutput p delta_ms).next U = some q2 ∧ q ≤ q2 := by
  cases p with
  | none => simp [clockOf, sessionsOf, findSession] at h
  | some t =>
    unfold SG_AdvanceOutput
    dsimp only
    split
    · exact ⟨q, h, le_refl q⟩
    · rename_i hd
      simp only [clockOf, sessionsOf, findSession, Option.map_eq_some'] at h ⊢
      obtain ⟨s, hs, hc⟩ := h
      refine ⟨q + delta_ms, ⟨{ s with clock := s.clock + delta_ms }, ?_, ?_⟩, by linarith⟩
      · rw [List.find?_map]
        have : ((fun x : Session => x.user_ID == U) ∘ fun x : Session =>
            { x with clock := x.clock + delta_ms }) = fun x : Session => x.user_ID == U := rfl
        rw [this, hs]
        rfl
      · simp only [hc]

theorem run_keeps_clock (p : SG_TransceiverPtr) (c : Call) (hc : c.isAdvance = false)
    (U : UserID) (q q2 : ℚ) (h1 : clockOf p U = some q)
    (h2 : clockOf (c.run p).2 U = some q2) : q2 = q := by
  have same : ∀ r : SG_TransceiverPtr, clocks r = clocks p → clockOf r U = some q2 → q2 = q := by
    intro r hr h
    rw [clockOf_congr p r hr U, h1] at h
    exact (Option.some.inj h).symm
  have unch : ∀ r : SG_TransceiverPtr, r = p → clockOf r U = some q2 → q2 = q := by
    intro r hr h
    exact same r (by rw [hr]) h
  cases p with
  | none => simp [clockOf, sessionsOf, findSession] at h1
  | some t =>
    cases c with
    | SG_STDLN_DestroyTransceiver =>
      simp [Call.run, SGCom.SG_STDLN_DestroyTransceiver, clockOf, sessionsOf, findSession] at h2
    | SG_STDLN_ConnectUser V config =>
      have h3 := connect_clockOf t V config U q h1
      simp only [Call.run] at h2
      rw [h3] at h2
      exact (Option.some.inj h2).symm
    | SG_STDLN_DisconnectUser V =>
      simp only [Call.run] at h2
      have h3 := disconnect_clockOf t V U q2 h2
      rw [h1] at h3
      exact (Option.some.inj h3).symm
    | SG_STDLN_Receive V packet =>
      exact same _ (receive_clocks (some t) V packet) h2
    | SG_Input a n u =>
      exact same _ (input_clocks (some t) a n u) h2
    | SG_AdvanceOutput d => simp [Call.isAdvance] at hc
    | SG_UpdateInputTraits traits =>
      refine same _ ?_ h2
      simp only [Call.run, SGCom.SG_UpdateInputTraits, Outcome.fail]
      repeat' split
      all_goals rfl
    | SG_SetMood mood =>
      refine same _ ?_ h2
      simp only [Call.run, SGCom.SG_SetMood]
      repeat' split
      all_goals rfl
    | SG_SetIntensity x =>
      exact same _ rfl h2
    | SG_STDLN_GetDecodingConfiguration => exact unch _ rfl h2
    | SG_STDLN_SynchronizeClock ct => exact unch _ rfl h2
    | SG_GetCurrentIntensity => exact unch _ rfl h2
    | SG_GetAnimationNodeInfo V i =>
      refine unch _ ?_ h2
      simp only [Call.run, SGCom.SG_GetAnimationNodeInfo, Outcome.fail]
      repeat' split
      all_goals rfl
    | SG_GetAnimationChannelName V nn ci sz =>
      refine unch _ ?_ h2
      simp only [Call.run, SGCom.SG_GetAnimationChannelName, Outcome.fail]
      repeat' split
      all_goals rfl
    | SG_GetOutputTraits V =>
      refine unch _ ?_ h2
      simp only [Call.run, SGCom.SG_GetOutputTraits, Outcome.fail]
      repeat' split
      all_goals rfl
    | SG_GetOutputAnimation V nn =>
      refine unch _ ?_ h2
      simp only [Call.run, SGCom.SG_GetOutputAnimation, Outcome.fail]
      repeat' split
      all_goals rfl
    | SG_GetOutputAudio V =>
      refine unch _ ?_ h2
      simp only [Call.run, SGCom.SG_GetOutputAudio, Outcome.fail]
      repeat' split
      all_goals rfl
    | SG_GetOutputUserData V =>
      refine unch _ ?_ h2
      simp only [Call.run, SGCom.SG_GetOutputUserData, Outcome.fail]
      repeat' split
      all_goals rfl
    | SG_GetMoodList sz =>
      refine unch _ ?_ h2
      simp only [Call.run, SGCom.SG_GetMoodList, Outcome.fail]
      repeat' split
      all_goals rfl
    | SG_GetCurrentMood sz =>
      refine unch _ ?_ h2
      simp only [Call.run, SGCom.SG_GetCurrentMood, Outcome.fail]
      repeat' split
      all_goals rfl

theorem set_lookupHandle_self (l : List SG_TransceiverPtr) (h : Nat) :
    l.set h (lookupHandle l h) = l := by
  induction l generalizing h with
  | nil => rfl
  | cons p rest ih =>
    cases h with
    | zero => rfl
    | succ k =>
      show p :: rest.set k (lookupHandle rest k) = p :: rest
      rw [ih]

theorem engine_run_error_unchanged (host : Host) (e : EngineState) (c : EngineCall)
    (h : (c.run host e).1 ≠ .SG_ERROR_OK) : (c.run host e).2 = e := by
  cases c with
  | SG_Initialize =>
    simp only [EngineCall.run, SG_Initialize] at h ⊢
    split
    · rename_i hl
      simp [hl] at h
    · rfl
  | SG_Shutdown => exact absurd rfl h
  | SG_SetLoggingLevel level => exact absurd rfl h
  | SG_STDLN_CreateTransceiver a c it ot ty u isz pms =>
    simp only [EngineCall.run, SG_STDLN_CreateTransceiver] at h ⊢
    split
    · rfl
    · rename_i h1
      split
      · rfl
      · rename_i h2
        simp [h1, h2] at h
  | onTransceiver handle c =>
    simp only [EngineCall.run] at h ⊢
    rw [run_error_unchanged _ c h, set_lookupHandle_self]

theorem sampleCallOf_function (f : SG_Export) (hf : f.returnType = .SG_Error) :
    ∃ c, sampleCallOf f = some c ∧ c.function = f := by
  cases f <;> first
    | exact ⟨_, rfl, rfl⟩
    | exact absurd hf (by decide)

/-! ## The header's declarations -/

/-- C3: `SG_OutputDataType` is a bitset over its three flags.  `SG_OUTPUT_NONE`
is 0; the flags are 2, 4 and 8, each non-zero, each a single bit, and two
different flags have bitwise AND 0; for every list `S` of flags, a flag `f`
has a non-zero AND with the OR of the values of `S` exactly when `f` is in
`S`; two lists of flags with the same mask have the same members; and the
empty list has mask `SG_OUTPUT_NONE`. -/
theorem SG_OutputDataType_bitset :
    SG_OutputDataType.SG_OUTPUT_NONE.toNat = 0
    ∧ SG_OutputDataType.SG_OUTPUT_ANIMATION.toNat = 2
    ∧ SG_OutputDataType.SG_OUTPUT_AUDIO.toNat = 4
    ∧ SG_OutputDataType.SG_OUTPUT_USER_DEFINED.toNat = 8
    ∧ (∀ o : SG_OutputDataType, o ∈ outputFlags ↔ o ≠ .SG_OUTPUT_NONE)
    ∧ (∀ f ∈ outputFlags, f.toNat ≠ 0 ∧ ∃ k, f.toNat = 2 ^ k)
    ∧ (∀ f ∈ outputFlags, ∀ g ∈ outputFlags, f ≠ g → f.toNat &&& g.toNat = 0)
    ∧ (∀ S : List SG_OutputDataType, (∀ x ∈ S, x ∈ outputFlags) →
        ∀ f ∈ outputFlags, (outputMask S &&& f.toNat ≠ 0 ↔ f ∈ S))
    ∧ (∀ S T : List SG_OutputDataType, (∀ x ∈ S, x ∈ outputFlags) →
        (∀ x ∈ T, x ∈ outputFlags) → outputMask S = outputMask T →
        ∀ f, f ∈ S ↔ f ∈ T)
    ∧ outputMask [] = SG_OutputDataType.SG_OUTPUT_NONE.toNat := by
  refine ⟨by decide, by decide, by decide, by decide, by decide, ?_, by decide, ?_, ?_,
    by decide⟩
  · intro f hf
    refine ⟨?_, ?_⟩
    · revert f; decide
    · simp only [outputFlags, List.mem_cons, List.mem_singleton, List.not_mem_nil,
        or_false] at hf
      rcases hf with rfl | rfl | rfl
      · exact ⟨1, by decide⟩
      · exact ⟨2, by decide⟩
      · exact ⟨3, by decide⟩
  · intro S hS f hf
    exact outputMask_and_ne_zero S hS f hf
  · intro S T hS hT hm f
    constructor
    · intro hfS
      have hf := hS f hfS
      have h1 := (outputMask_and_ne_zero S hS f hf).2 hfS
      rw [hm] at h1
      exact (outputMask_and_ne_zero T hT f hf).1 h1
    · intro hfT
      have hf := hT f hfT
      have h1 := (outputMask_and_ne_zero T hT f hf).2 hfT
      rw [← hm] at h1
      exact (outputMask_and_ne_zero S hS f hf).1 h1

/-- C10: the numbering of `SG_Error`.  The declaration lists all fourteen
enumerators and C numbers them 0..13 in declaration order; each named
enumerator has the value the claim gives; `SG_ERROR_OK` is the only one with
value 0; every value is at most 13, different enumerators have different
values, and every integer from 0 to 13 is the value of exactly one
enumerator. -/
theorem SG_Error_numeric_abi :
    (∀ e : SG_Error, e ∈ SG_Error.decl.map Prod.fst)
    ∧ SG_Error.decl.map (fun p => p.1.toNat) = List.range 14
    ∧ SG_Error.SG_ERROR_OK.toNat = 0
    ∧ SG_Error.SG_ERROR_BUFFER_OVERFLOW.toNat = 1
    ∧ SG_Error.SG_ERROR_UNKNOWN0.toNat = 2
    ∧ SG_Error.SG_ERROR_LICENSE_INIT.toNat = 3
    ∧ SG_Error.SG_ERROR_UNKNOWN1.toNat = 4
    ∧ SG_Error.SG_ERROR_LICENSE_CHECKOUT.toNat = 5
    ∧ SG_Error.SG_ERROR_UNKNOWN2.toNat = 6
    ∧ SG_Error.SG_ERROR_INVALID_TRANSCEIVER.toNat = 7
    ∧ SG_Error.SG_ERROR_INVALID_INPUT_TRAITS.toNat = 8
    ∧ SG_Error.SG_ERROR_INPUT_FAILURE.toNat = 9
    ∧ SG_Error.SG_ERROR_INVALID_OUTPUT_TRAITS.toNat = 10
    ∧ SG_Error.SG_ERROR_INVALID_USER_ID.toNat = 11
    ∧ SG_Error.SG_ERROR_INVALID_ANIMATION_NODE.toNat = 12
    ∧ SG_Error.SG_ERROR_INVALID_ANIMATION_CHANNEL.toNat = 13
    ∧ (∀ e : SG_Error, e.toNat = 0 ↔ e = .SG_ERROR_OK)
    ∧ (∀ e : SG_Error, e.toNat ≤ 13)
    ∧ Function.Injective SG_Error.toNat
    ∧ (∀ n, n ≤ 13 → ∃! e : SG_Error, e.toNat = n) := by
  have hinj : Function.Injective SG_Error.toNat := by decide
  have hsurj : ∀ n, n ≤ 13 → ∃ e : SG_Error, e.toNat = n := by decide
  have hex : ∀ n, n ≤ 13 → ∃! e : SG_Error, e.toNat = n := by
    intro n hn
    obtain ⟨e, he⟩ := hsurj n hn
    exact ⟨e, he, fun e2 he2 => hinj (he2.trans he.symm)⟩
  and_intros
  all_goals first | exact hinj | exact hex | decide

/-- C4: every error category of the specification's taxonomy has its own
enumerator of `SG_Error`: the assignment of enumerators to categories is as
the claim lists it and is injective, the numeric values of the assigned
enumerators are pairwise distinct, and none equals the value of
`SG_ERROR_OK`; so a returned code stands for at most one category. -/
theorem error_taxonomy_distinct :
    SpecErrorCategory.BufferOverflow.enumerator = .SG_ERROR_BUFFER_OVERFLOW
    ∧ SpecErrorCategory.InvalidHandle.enumerator = .SG_ERROR_INVALID_TRANSCEIVER
    ∧ SpecErrorCategory.InvalidInputTraits.enumerator = .SG_ERROR_INVALID_INPUT_TRAITS
    ∧ SpecErrorCategory.InvalidOutputTraits.enumerator = .SG_ERROR_INVALID_OUTPUT_TRAITS
    ∧ SpecErrorCategory.InputFailure.enumerator = .SG_ERROR_INPUT_FAILURE
    ∧ SpecErrorCategory.InvalidUserId.enumerator = .SG_ERROR_INVALID_USER_ID
    ∧ SpecErrorCategory.InvalidAnimationNode.enumerator = .SG_ERROR_INVALID_ANIMATION_NODE
    ∧ SpecErrorCategory.InvalidAnimationChannel.enumerator
        = .SG_ERROR_INVALID_ANIMATION_CHANNEL
    ∧ SpecErrorCategory.LicenseInit.enumerator = .SG_ERROR_LICENSE_INIT
    ∧ SpecErrorCategory.LicenseCheckout.enumerator = .SG_ERROR_LICENSE_CHECKOUT
    ∧ Function.Injective SpecErrorCategory.enumerator
    ∧ (∀ c d : SpecErrorCategory, c ≠ d → c.enumerator.toNat ≠ d.enumerator.toNat)
    ∧ (∀ c : SpecErrorCategory, c.enumerator.toNat ≠ SG_Error.SG_ERROR_OK.toNat)
    ∧ (∀ n : Nat, ∀ c d : SpecErrorCategory,
        c.enumerator.toNat = n → d.enumerator.toNat = n → c = d) := by
  have hne : ∀ c d : SpecErrorCategory, c ≠ d → c.enumerator.toNat ≠ d.enumerator.toNat := by
    decide
  refine ⟨rfl, rfl, rfl, rfl, rfl, rfl, rfl, rfl, rfl, rfl, by decide, hne, by decide, ?_⟩
  intro n c d hc hd
  by_contra hcd
  exact hne c d hcd (hc.trans hd.symm)

/-- C5: the input-traits domain.  `SG_SampleType` has exactly the five values
PCM8, PCM16, PCM32, Float32, Float64, numbered 0..4 in that order;
`SG_SampleRate` has exactly six values, numbered 0..5, denoting 8, 12, 16, 24,
32 and 48 kHz in that order; the map from a sample rate to its kHz is
injective and strictly increasing in the enumerator's value; and an
`SG_InputTraits` is exactly a triple of a sample type, a sample rate and a
`user_sample_size`. -/
theorem SG_InputTraits_domain :
    Fintype.card SG_SampleType = 5
    ∧ (∀ s : SG_SampleType, s ∈ SG_SampleType.decl.map Prod.fst)
    ∧ SG_SampleType.decl.map Prod.fst =
        [.SG_SAMPLE_PCM8, .SG_SAMPLE_PCM16, .SG_SAMPLE_PCM32, .SG_SAMPLE_FLOAT32,
          .SG_SAMPLE_FLOAT64]
    ∧ SG_SampleType.decl.map (fun p => p.1.toNat) = [0, 1, 2, 3, 4]
    ∧ Fintype.card SG_SampleRate = 6
    ∧ (∀ r : SG_SampleRate, r ∈ SG_SampleRate.decl.map Prod.fst)
    ∧ SG_SampleRate.decl.map (fun p => p.1.toNat) = [0, 1, 2, 3, 4, 5]
    ∧ SG_SampleRate.decl.map (fun p => p.1.kHz) = [8, 12, 16, 24, 32, 48]
    ∧ Function.Injective SG_SampleRate.kHz
    ∧ (∀ a b : SG_SampleRate, a.toNat < b.toNat → a.kHz < b.kHz)
    ∧ Function.Bijective
        (fun t : SG_InputTraits => (t.sample_type, t.sample_rate, t.user_sample_size)) := by
  have hbij : Function.Bijective
      (fun t : SG_InputTraits => (t.sample_type, t.sample_rate, t.user_sample_size)) := by
    constructor
    · rintro ⟨a, b, c⟩ ⟨a2, b2, c2⟩ h
      simp only [Prod.mk.injEq] at h
      obtain ⟨rfl, rfl, rfl⟩ := h
      rfl
    · rintro ⟨a, b, c⟩
      exact ⟨⟨a, b, c⟩, rfl⟩
  and_intros
  all_goals first | exact hbij.1 | exact hbij.2 | decide

/-- C9: `SG_AnimationNodeInfo` is exactly a name, a type and a channel count.
The name is a buffer of 1024 bytes, so a name terminated by a NUL inside the
buffer has at most 1023 characters (and 1023 is reached); the node type has
exactly the three values JOINT, BLEND_SHAPE and CONTROL, numbered 0, 1, 2; and
the channel count is below 2^32. -/
theorem SG_AnimationNodeInfo_shape :
    Function.Bijective
        (fun i : SG_AnimationNodeInfo => (i.name, i.type, i.channel_count))
    ∧ (∀ i : SG_AnimationNodeInfo, i.name.val.length = 1024)
    ∧ (∀ (i : SG_AnimationNodeInfo) (n : Nat), cstrlen i.name.val = some n → n ≤ 1023)
    ∧ (∃ l : CharArray 1024, cstrlen l.val = some 1023)
    ∧ Fintype.card SG_AnimationNodeType = 3
    ∧ (∀ k : SG_AnimationNodeType,
        k = .SG_NODE_JOINT ∨ k = .SG_NODE_BLEND_SHAPE ∨ k = .SG_NODE_CONTROL)
    ∧ SG_AnimationNodeType.SG_NODE_JOINT.toNat = 0
    ∧ SG_AnimationNodeType.SG_NODE_BLEND_SHAPE.toNat = 1
    ∧ SG_AnimationNodeType.SG_NODE_CONTROL.toNat = 2
    ∧ (∀ i : SG_AnimationNodeInfo, i.channel_count.val < 2 ^ 32) := by
  refine ⟨⟨?_, ?_⟩, fun i => i.name.property, ?_, ?_, by decide, by decide, by decide,
    by decide, by decide, fun i => i.channel_count.isLt⟩
  · rintro ⟨a, b, c⟩ ⟨a2, b2, c2⟩ h
    simp only [Prod.mk.injEq] at h
    obtain ⟨rfl, rfl, rfl⟩ := h
    rfl
  · rintro ⟨a, b, c⟩
    exact ⟨⟨a, b, c⟩, rfl⟩
  · intro i n h
    have h1 := cstrlen_lt i.name.val n h
    have h2 := i.name.property
    omega
  · refine ⟨⟨List.replicate 1023 1 ++ [0], ?_⟩, ?_⟩
    · rw [List.length_append, List.length_replicate, List.length_singleton]
    · exact cstrlen_replicate_one 1023

/-- C2, as the header has it: an exported function has return type `SG_Error`
exactly when it is neither `SG_GetVersionString`, which returns
`const char*`, nor `SG_GetVersionNumber`, which returns `uint32_t`. -/
theorem exports_return_SG_Error_except_version :
    (∀ f : SG_Export, f.returnType = .SG_Error ↔
        (f ≠ .SG_GetVersionString ∧ f ≠ .SG_GetVersionNumber))
    ∧ SG_Export.SG_GetVersionString.returnType = .const_char_ptr
    ∧ SG_Export.SG_GetVersionNumber.returnType = .uint32_t
    ∧ Fintype.card SG_Export = 26 := by
  refine ⟨by decide, rfl, rfl, by decide⟩

/-- C2 as stated fails: not every exported function has return type
`SG_Error`; `SG_GetVersionString` is declared `const char*`. -/
theorem exports_not_all_SG_Error :
    SG_Export.SG_GetVersionString.returnType ≠ .SG_Error
    ∧ ¬ (∀ f : SG_Export, f.returnType = .SG_Error) := by
  refine ⟨by decide, by decide⟩

/-! ## The engine -/

/-- C6: intensity is clamped to [0,1].  On every transceiver `SG_SetIntensity`
returns `SG_ERROR_OK` and stores 0 for a value below 0, 1 for a value above 1,
and the value itself inside [0,1]; the stored value lies in [0,1], and a
following `SG_GetCurrentIntensity` returns `SG_ERROR_OK` and the stored
value.  In particular setting -1 then getting gives 0, and setting 2 then
getting gives 1. -/
theorem intensity_clamped (t : SG_Transceiver) :
    (∀ x : ℚ, (SG_SetIntensity (some t) x).err = .SG_ERROR_OK)
    ∧ (∀ x : ℚ, ∃ t2 : SG_Transceiver, (SG_SetIntensity (some t) x).next = some t2
        ∧ (x < 0 → t2.intensity = 0)
        ∧ (1 < x → t2.intensity = 1)
        ∧ (0 ≤ x → x ≤ 1 → t2.intensity = x)
        ∧ 0 ≤ t2.intensity ∧ t2.intensity ≤ 1
        ∧ (SG_GetCurrentIntensity (some t2)).err = .SG_ERROR_OK
        ∧ (SG_GetCurrentIntensity (some t2)).out = some t2.intensity
        ∧ (SG_GetCurrentIntensity (some t2)).next = some t2)
    ∧ (SG_GetCurrentIntensity (SG_SetIntensity (some t) (-1)).next).out = some 0
    ∧ (SG_GetCurrentIntensity (SG_SetIntensity (some t) 2).next).out = some 1 := by
  refine ⟨fun x => rfl, ?_, ?_, ?_⟩
  · intro x
    refine ⟨_, rfl, ?_, ?_, ?_, ?_, ?_, rfl, rfl, rfl⟩
    · intro hx
      simp only [if_pos hx]
    · intro hx
      have h0 : ¬ x < 0 := by linarith
      simp only [if_neg h0, if_pos hx]
    · intro h0 h1
      have h0n : ¬ x < 0 := by linarith
      have h1n : ¬ 1 < x := by linarith
      simp only [if_neg h0n, if_neg h1n]
    · show (0 : ℚ) ≤ if x < 0 then 0 else if 1 < x then 1 else x
      split_ifs <;> linarith
    · show (if x < 0 then 0 else if 1 < x then 1 else x) ≤ (1 : ℚ)
      split_ifs <;> linarith
  · show some (if (-1 : ℚ) < 0 then (0 : ℚ) else if 1 < (-1 : ℚ) then 1 else -1) = some 0
    norm_num
  · show some (if (2 : ℚ) < 0 then (0 : ℚ) else if 1 < (2 : ℚ) then 1 else 2) = some 1
    norm_num

/-- A concrete run of C6 on the sample transceiver: 3/2 is stored as 1. -/
theorem intensity_clamped_at_sample :
    ∃ t2 : SG_Transceiver, (SG_SetIntensity (some sampleTransceiver) (3 / 2)).next = some t2
      ∧ t2.intensity = 1 := by
  obtain ⟨t2, h, _, h1, _⟩ := (intensity_clamped sampleTransceiver).2.1 (3 / 2)
  exact ⟨t2, h, h1 (by norm_num)⟩

/-- C1: a user ID that is not connected is an invalid user ID.  On every
transceiver `t` and for every 64-bit user ID `U`: when `U` is not connected,
each of `SG_STDLN_Receive`, `SG_STDLN_DisconnectUser`,
`SG_GetAnimationNodeInfo`, `SG_GetAnimationChannelName`, `SG_GetOutputTraits`,
`SG_GetOutputAnimation`, `SG_GetOutputAudio` and `SG_GetOutputUserData` called
with `U` returns `SG_ERROR_INVALID_USER_ID`, whatever its other arguments; and
whether or not `U` was connected, after connect(U) then disconnect(U) the user
is not connected and `SG_GetOutputAnimation` with `U` and any node name
returns `SG_ERROR_INVALID_USER_ID`. -/
theorem unconnected_user_is_invalid (t : SG_Transceiver) (U : UserID) :
    (connected t U = false →
      (∀ packet, (SG_STDLN_Receive (some t) U packet).err = .SG_ERROR_INVALID_USER_ID)
      ∧ (SG_STDLN_DisconnectUser (some t) U).err = .SG_ERROR_INVALID_USER_ID
      ∧ (∀ node_index,
          (SG_GetAnimationNodeInfo (some t) U node_index).err = .SG_ERROR_INVALID_USER_ID)
      ∧ (∀ node_name channel_idx channel_name_size,
          (SG_GetAnimationChannelName (some t) U node_name channel_idx channel_name_size).err
            = .SG_ERROR_INVALID_USER_ID)
      ∧ (SG_GetOutputTraits (some t) U).err = .SG_ERROR_INVALID_USER_ID
      ∧ (∀ node_name,
          (SG_GetOutputAnimation (some t) U node_name).err = .SG_ERROR_INVALID_USER_ID)
      ∧ (SG_GetOutputAudio (some t) U).err = .SG_ERROR_INVALID_USER_ID
      ∧ (SG_GetOutputUserData (some t) U).err = .SG_ERROR_INVALID_USER_ID)
    ∧ (∀ config node_name,
        (∃ t2, (SG_STDLN_DisconnectUser (SG_STDLN_ConnectUser (some t) U config).next U).next
            = some t2 ∧ connected t2 U = false)
        ∧ (SG_GetOutputAnimation
            (SG_STDLN_DisconnectUser (SG_STDLN_ConnectUser (some t) U config).next U).next
            U node_name).err = .SG_ERROR_INVALID_USER_ID) := by
  constructor
  · intro h
    have hf : findSession t.sessions U = none := by
      simpa [connected] using h
    refine ⟨?_, ?_, ?_, ?_, ?_, ?_, ?_, ?_⟩
    · intro packet
      simp only [SG_STDLN_Receive, hf, Outcome.fail]
    · simp [SG_STDLN_DisconnectUser, h, Outcome.fail]
    · intro node_index
      simp only [SG_GetAnimationNodeInfo, hf, Outcome.fail]
    · intro node_name channel_idx channel_name_size
      simp only [SG_GetAnimationChannelName, hf, Outcome.fail]
    · simp only [SG_GetOutputTraits, hf, Outcome.fail]
    · intro node_name
      exact getOutputAnimation_not_connected t U h node_name
    · simp only [SG_GetOutputAudio, hf, Outcome.fail]
    · simp only [SG_GetOutputUserData, hf, Outcome.fail]
  · intro config node_name
    obtain ⟨t1, h1⟩ := connect_next_some t U config
    obtain ⟨t2, h2, hc⟩ := disconnect_not_connected t1 U
    rw [h1, h2]
    exact ⟨⟨t2, rfl, hc⟩, getOutputAnimation_not_connected t2 U hc node_name⟩

/-- A concrete run of C1: user 7 is not connected to the sample transceiver,
and `SG_GetOutputAudio` with 7 returns `SG_ERROR_INVALID_USER_ID`; user 42 is
connected, and after disconnect(42) `SG_GetOutputTraits` with 42 returns
`SG_ERROR_INVALID_USER_ID`. -/
theorem unconnected_user_is_invalid_at_sample :
    connected sampleTransceiver 7 = false
    ∧ (SG_GetOutputAudio (some sampleTransceiver) 7).err = .SG_ERROR_INVALID_USER_ID
    ∧ connected sampleTransceiver 42 = true
    ∧ (SG_GetOutputTraits (SG_STDLN_DisconnectUser (some sampleTransceiver) 42).next 42).err
        = .SG_ERROR_INVALID_USER_ID := by
  have h7 : connected sampleTransceiver 7 = false := by decide
  refine ⟨h7, ((unconnected_user_is_invalid sampleTransceiver 7).1 h7).2.2.2.2.2.2.1,
    by decide, by decide⟩

/-- C7: a failed call mutates nothing.  On every transceiver, `SG_Input` with
a `sample_count` that is inconsistent with the configured input traits,
whatever the engine's rule of consistency between traits and count is,
returns `SG_ERROR_INVALID_INPUT_TRAITS`, leaves the transceiver as it was, and
the input buffer has the length it had.  More generally every call that
returns something other than `SG_ERROR_OK` leaves the whole engine state, and
so every session of every transceiver, as it was: this holds for the calls of
the four process-wide functions and of the twenty functions that take a
transceiver, on any handle and with any arguments, and these are calls of
every exported function that returns an `SG_Error`. -/
theorem failed_call_mutates_nothing :
    (∀ (t : SG_Transceiver) (audio_data : BytePtr) (sample_count : UInt32Val)
        (user_data : Option BytePtr),
        t.model.sample_count_ok t.input_traits sample_count = false →
        (SG_Input (some t) audio_data sample_count user_data).err
            = .SG_ERROR_INVALID_INPUT_TRAITS
        ∧ (SG_Input (some t) audio_data sample_count user_data).next = some t
        ∧ inputBufferLength (SG_Input (some t) audio_data sample_count user_data).next
            = some t.input_buffer.length)
    ∧ (∀ (host : Host) (e : EngineState) (c : EngineCall),
        (c.run host e).1 ≠ .SG_ERROR_OK →
          (c.run host e).2 = e ∧ (c.run host e).2.sessions = e.sessions)
    ∧ (∀ (p : SG_TransceiverPtr) (c : Call),
        (c.run p).1 ≠ .SG_ERROR_OK →
          (c.run p).2 = p ∧ sessionsOf (c.run p).2 = sessionsOf p)
    ∧ (∀ f : SG_Export, f.returnType = .SG_Error → ∃ c : EngineCall, c.function = f) := by
  refine ⟨?_, ?_, ?_, ?_⟩
  · intro t audio_data sample_count user_data h
    simp [SG_Input, h, Outcome.fail, inputBufferLength]
  · intro host e c h
    have he := engine_run_error_unchanged host e c h
    exact ⟨he, by rw [he]⟩
  · intro p c h
    have hp := run_error_unchanged p c h
    exact ⟨hp, by rw [hp]⟩
  · intro f hf
    obtain ⟨c, _, hc⟩ := sampleCallOf_function f hf
    exact ⟨c, hc⟩

/-- A concrete run of C7.  On the sample transceiver (16 kHz, whole
milliseconds only) a push of 2 samples is inconsistent: the call returns
`SG_ERROR_INVALID_INPUT_TRAITS` and the buffer keeps its length 0, while a
push of 16 samples returns `SG_ERROR_OK`.  On the sample engine `SG_Initialize` fails for want of a license, and a receive on
handle 0 for user 7, who is not connected, fails; both leave the engine as it
was. -/
theorem failed_call_mutates_nothing_at_sample :
    sampleTransceiver.model.sample_count_ok sampleTransceiver.input_traits 2 = false
    ∧ (SG_Input (some sampleTransceiver) (fun _ => 0) 2 none).err
        = .SG_ERROR_INVALID_INPUT_TRAITS
    ∧ inputBufferLength (SG_Input (some sampleTransceiver) (fun _ => 0) 2 none).next = some 0
    ∧ (SG_Input (some sampleTransceiver) (fun _ => 0) 16 none).err = .SG_ERROR_OK
    ∧ (EngineCall.SG_Initialize.run sampleHost sampleEngine).1 = .SG_ERROR_LICENSE_INIT
    ∧ (EngineCall.SG_Initialize.run sampleHost sampleEngine).2 = sampleEngine
    ∧ ((EngineCall.onTransceiver 0 (Call.SG_STDLN_Receive 7 [])).run sampleHost sampleEngine).1
        = .SG_ERROR_INVALID_USER_ID
    ∧ ((EngineCall.onTransceiver 0 (Call.SG_STDLN_Receive 7 [])).run sampleHost sampleEngine).2
        = sampleEngine := by
  have hi : sampleTransceiver.model.sample_count_ok sampleTransceiver.input_traits 2
      = false := by decide
  have h1 : (EngineCall.SG_Initialize.run sampleHost sampleEngine).1
      = .SG_ERROR_LICENSE_INIT := by decide
  have h2 : ((EngineCall.onTransceiver 0 (Call.SG_STDLN_Receive 7 [])).run sampleHost
      sampleEngine).1 = .SG_ERROR_INVALID_USER_ID := by decide
  obtain ⟨e1, _, e3⟩ :=
    failed_call_mutates_nothing.1 sampleTransceiver (fun _ => 0) 2 none hi
  refine ⟨hi, e1, e3, by decide, h1, ?_, h2, ?_⟩
  · exact (failed_call_mutates_nothing.2.1 sampleHost sampleEngine EngineCall.SG_Initialize
      (by rw [h1]; decide)).1
  · exact (failed_call_mutates_nothing.2.1 sampleHost sampleEngine
      (EngineCall.onTransceiver 0 (Call.SG_STDLN_Receive 7 [])) (by rw [h2]; decide)).1

/-- C8: each session's output clock is monotonic and changes only through
`SG_AdvanceOutput`.  On every pointer: `SG_Input` and `SG_STDLN_Receive` leave
the clock of every session as it was, and the three pull accessors leave the
whole transceiver as it was; no call other than `SG_AdvanceOutput` changes the
clock of a user who is connected before and after it; `SG_AdvanceOutput`
keeps the sessions and decreases no clock, for any `delta_ms`; and
`SG_AdvanceOutput(0)` returns `SG_ERROR_OK` on a valid transceiver and leaves
it as it was, so that each pull accessor returns after it what it returned
before it. -/
theorem output_clock_monotonic (p : SG_TransceiverPtr) :
    (∀ audio_data sample_count user_data,
        clocks (SG_Input p audio_data sample_count user_data).next = clocks p)
    ∧ (∀ U packet, clocks (SG_STDLN_Receive p U packet).next = clocks p)
    ∧ (∀ U node_name, (SG_GetOutputAnimation p U node_name).next = p)
    ∧ (∀ U, (SG_GetOutputAudio p U).next = p)
    ∧ (∀ U, (SG_GetOutputUserData p U).next = p)
    ∧ (∀ c : Call, c.isAdvance = false → ∀ (U : UserID) (q q2 : ℚ),
        clockOf p U = some q → clockOf (c.run p).2 U = some q2 → q2 = q)
    ∧ (∀ delta_ms : ℚ, List.Forall₂ (fun a b : UserID × ℚ => a.1 = b.1 ∧ a.2 ≤ b.2)
        (clocks p) (clocks (SG_AdvanceOutput p delta_ms).next))
    ∧ (∀ (delta_ms : ℚ) (U : UserID) (q : ℚ), clockOf p U = some q →
        ∃ q2, clockOf (SG_AdvanceOutput p delta_ms).next U = some q2 ∧ q ≤ q2)
    ∧ (SG_AdvanceOutput p 0).next = p
    ∧ (p.isSome = true → (SG_AdvanceOutput p 0).err = .SG_ERROR_OK)
    ∧ (∀ U node_name, SG_GetOutputAnimation (SG_AdvanceOutput p 0).next U node_name
        = SG_GetOutputAnimation p U node_name)
    ∧ (∀ U, SG_GetOutputAudio (SG_AdvanceOutput p 0).next U = SG_GetOutputAudio p U)
    ∧ (∀ U, SG_GetOutputUserData (SG_AdvanceOutput p 0).next U
        = SG_GetOutputUserData p U) := by
  refine ⟨fun a n u => input_clocks p a n u, fun U k => receive_clocks p U k, ?_, ?_, ?_, ?_,
    fun d => advance_clocks p d, ?_, advance_zero p, ?_, ?_, ?_, ?_⟩
  · intro U node_name
    cases p with
    | none => rfl
    | some t =>
      simp only [SG_GetOutputAnimation, Outcome.fail]
      repeat' split
      all_goals rfl
  · intro U
    cases p with
    | none => rfl
    | some t =>
      simp only [SG_GetOutputAudio, Outcome.fail]
      repeat' split
      all_goals rfl
  · intro U
    cases p with
    | none => rfl
    | some t =>
      simp only [SG_GetOutputUserData, Outcome.fail]
      repeat' split
      all_goals rfl
  · intro c hc U q q2 h1 h2
    exact run_keeps_clock p c hc U q q2 h1 h2
  · intro delta_ms U q hq
    exact advance_clockOf p delta_ms U q hq
  · intro hp
    cases p with
    | none => simp at hp
    | some t => simp [SG_AdvanceOutput]
  · intro U node_name
    rw [advance_zero]
  · intro U
    rw [advance_zero]
  · intro U
    rw [advance_zero]

/-- A concrete run of C8 on the sample transceiver, whose user 42 has its
clock at 5 ms: advancing by 10 ms puts the clock at 15 ms, advancing by -3 ms
leaves it at 5 ms, pushing 16 samples of audio leaves it at 5 ms, and
advancing by 0 leaves the transceiver as it was. -/
theorem output_clock_monotonic_at_sample :
    clockOf (some sampleTransceiver) 42 = some 5
    ∧ clockOf (SG_AdvanceOutput (some sampleTransceiver) 10).next 42 = some 15
    ∧ clockOf (SG_AdvanceOutput (some sampleTransceiver) (-3)).next 42 = some 5
    ∧ clocks (SG_Input (some sampleTransceiver) (fun _ => 0) 16 none).next = [(42, 5)]
    ∧ (SG_AdvanceOutput (some sampleTransceiver) 0).next = some sampleTransceiver := by
  have h := output_clock_monotonic (some sampleTransceiver)
  refine ⟨rfl, ?_, ?_, ?_, h.2.2.2.2.2.2.2.2.1⟩
  · norm_num [clockOf, SG_AdvanceOutput, sessionsOf, findSession, sampleTransceiver,
      sampleSession]
  · norm_num [clockOf, SG_AdvanceOutput, sessionsOf, findSession, sampleTransceiver,
      sampleSession]
  · rw [h.1]
    rfl

/-- A concrete run of C3: the mask of animation and user-defined output is
10; it has the animation flag and the user-defined flag set and the audio
flag clear. -/
theorem SG_OutputDataType_bitset_at_sample :
    outputMask [.SG_OUTPUT_ANIMATION, .SG_OUTPUT_USER_DEFINED] = 10
    ∧ outputMask [.SG_OUTPUT_ANIMATION, .SG_OUTPUT_USER_DEFINED]
        &&& SG_OutputDataType.SG_OUTPUT_ANIMATION.toNat ≠ 0
    ∧ ¬ (outputMask [.SG_OUTPUT_ANIMATION, .SG_OUTPUT_USER_DEFINED]
        &&& SG_OutputDataType.SG_OUTPUT_AUDIO.toNat ≠ 0) := by
  have h := SG_OutputDataType_bitset.2.2.2.2.2.2.2.1
    [.SG_OUTPUT_ANIMATION, .SG_OUTPUT_USER_DEFINED] (by decide)
  exact ⟨by decide, (h .SG_OUTPUT_ANIMATION (by decide)).2 (by decide),
    fun hne => absurd ((h SG_OutputDataType.SG_OUTPUT_AUDIO (by decide)).1 hne) (by decide)⟩

/-- A concrete run of C9: a node info whose name buffer holds "abc" and then
NULs has a name of 3 characters, within the bound of 1023. -/
theorem SG_AnimationNodeInfo_shape_at_sample :
    cstrlen (sampleNodeInfo.name.val) = some 3 ∧ 3 ≤ 1023 := by
  have h : cstrlen (sampleNodeInfo.name.val) = some 3 := by
    show cstrlen ([97, 98, 99] ++ List.replicate 1021 0) = some 3
    rfl
  exact ⟨h, SG_AnimationNodeInfo_shape.2.2.1 sampleNodeInfo 3 h⟩

end SGCom
